import Mathlib

/-!
Shallow embedding of the AI-analysis caching and response-normalization layer
of the jobsforce backend: the four task handlers of
`src/controllers/aiController.ts` (analyzeSolution, complexityAnalysis,
optimizeSolution, generateTestCases), the `OpenAIService` normalization
methods, and the `AIAnalysis` persisted record.

JavaScript values flowing out of `JSON.parse` are modelled by the inductive
type `Js`; machine behaviour relied on by the source (truthiness, `||`
defaulting, property access, duplicate-key objects) is modelled explicitly.
The external model provider is an oracle (`GwResult`): it either yields the
raw text of the first choice or fails, exactly the two outcomes the service
distinguishes.
-/

/-- JSON-like values as produced by `JSON.parse`; numbers keep their lexeme. -/
inductive Js where
  | null
  | bool (b : Bool)
  | num (lexeme : String)
  | str (s : String)
  | arr (elems : List Js)
  | obj (fields : List (String × Js))

/-- Is this value `null`? (Property access on `null` throws in JS.) -/
def Js.isNull : Js → Bool
  | .null => true
  | _ => false

/-- Is this value an array? (`Array.isArray`.) -/
def Js.isArr : Js → Bool
  | .arr _ => true
  | _ => false

/-- JS `.length`: array length, string length, otherwise 0 (no such field). -/
def Js.len : Js → Nat
  | .arr xs => xs.length
  | .str s => s.length
  | _ => 0

/-- Is a JSON number lexeme numerically zero (mantissa digits all zero)? -/
def mantissaZero (s : String) : Bool :=
  let m := s.toList.takeWhile (fun c => c != 'e' && c != 'E')
  let ds := m.filter (fun c => c != '-' && c != '.')
  ds.all (fun c => c == '0')

/-- JavaScript truthiness of a parsed JSON value. -/
def Js.truthy : Js → Bool
  | .null => false
  | .bool b => b
  | .num s => !(mantissaZero s)
  | .str s => !(s.isEmpty)
  | .arr _ => true
  | .obj _ => true

/-- Last binding of a key in an association list (JS duplicate keys: last wins). -/
def lookLast (fs : List (String × Js)) (key : String) : Option Js :=
  match fs with
  | [] => none
  | (k, v) :: rest =>
    match lookLast rest key with
    | some w => some w
    | none => if k == key then some v else none

/-- JS property read `j.key`: `none` models `undefined`. -/
def jget (j : Js) (key : String) : Option Js :=
  match j with
  | .obj fs => lookLast fs key
  | _ => none

/-- JS property write `j.key = v` (no effect on non-objects, as in sloppy mode). -/
def jset (j : Js) (key : String) (v : Js) : Js :=
  match j with
  | .obj fs => .obj ((fs.filter (fun p => p.1 != key)) ++ [(key, v)])
  | _ => j

/-- JS `x.key || dflt`: the field if present and truthy, else the default. -/
def jsOr (x : Option Js) (dflt : Js) : Js :=
  match x with
  | some v => if v.truthy then v else dflt
  | none => dflt

/-! ## String machinery of the service layer

`sanitizeJsonResponse` mirrors the helper in the OpenAI service file:
`content.replace(fence-start-regex, "").replace(fence-end-regex, "").trim()`,
and `replaceCompr` / `replaceRange` mirror the two global regex replacements
of `generateTestCases` that blank out comprehension-like and range-like
array constructs. -/

/-- The backquote character of a markdown code fence. -/
def bq : Char := Char.ofNat 96

/-- Whitespace removed by JS `String.prototype.trim` (the cases we model). -/
def jsTrimWs (c : Char) : Bool :=
  c == ' ' || c == '\t' || c == '\n' || c == '\r' || c == Char.ofNat 11 || c == Char.ofNat 12

/-- JSON whitespace accepted between tokens by `JSON.parse`. -/
def jsonWs (c : Char) : Bool :=
  c == ' ' || c == '\t' || c == '\n' || c == '\r'

/-- Strip a leading fence: three backquotes, optional `json` tag, one CR or LF. -/
def stripStartFence (cs : List Char) : List Char :=
  match cs with
  | a :: b :: c :: rest =>
    if a == bq && b == bq && c == bq then
      match rest with
      | 'j' :: 's' :: 'o' :: 'n' :: d :: tail =>
        if d == '\r' || d == '\n' then tail
        else match rest with
             | d2 :: tail2 => if d2 == '\r' || d2 == '\n' then tail2 else cs
             | [] => cs
      | d2 :: tail2 => if d2 == '\r' || d2 == '\n' then tail2 else cs
      | [] => cs
    else cs
  | _ => cs

/-- Strip a trailing fence: three backquotes at the very end of the string. -/
def stripEndFence (cs : List Char) : List Char :=
  if (cs.reverse.take 3) == [bq, bq, bq] then (cs.reverse.drop 3).reverse else cs

/-- JS trim on a character list. -/
def trimChars (cs : List Char) : List Char :=
  ((cs.dropWhile jsTrimWs).reverse.dropWhile jsTrimWs).reverse

/-- `sanitizeJsonResponse` of the OpenAI service: unwrap a markdown fence, trim. -/
def sanitizeJsonResponse (content : String) : String :=
  String.mk (trimChars (stripEndFence (stripStartFence content.toList)))

/-- Does `pat` occur as a prefix of `text`? -/
def isSeqAt : List Char → List Char → Bool
  | [], _ => true
  | _ :: _, [] => false
  | p :: ps, t :: ts => p == t && isSeqAt ps ts

/-- Does `pat` occur anywhere in `text`? -/
def containsSeq (pat : List Char) : List Char → Bool
  | [] => isSeqAt pat []
  | t :: ts => isSeqAt pat (t :: ts) || containsSeq pat ts

/-- One pass of the global regex that turns a bracketed segment containing
`for` (with no intervening close bracket) into an empty array literal. -/
def replaceComprAux : Nat → List Char → List Char
  | 0, cs => cs
  | _ + 1, [] => []
  | fuel + 1, c :: rest =>
    if c == '[' then
      let inside := rest.takeWhile (fun d => d != ']')
      let after := rest.dropWhile (fun d => d != ']')
      match after with
      | ']' :: tail =>
        if containsSeq ['f', 'o', 'r'] inside then
          '[' :: ']' :: replaceComprAux fuel tail
        else c :: replaceComprAux fuel rest
      | _ => c :: replaceComprAux fuel rest
    else c :: replaceComprAux fuel rest

/-- `content.replace(comprehension-regex, "[]")` applied globally. -/
def replaceCompr (s : String) : String :=
  String.mk (replaceComprAux (s.toList.length + 1) s.toList)

/-- One pass of the global regex that turns `range(` digits `)` into `[]`. -/
def replaceRangeAux : Nat → List Char → List Char
  | 0, cs => cs
  | _ + 1, [] => []
  | fuel + 1, c :: rest =>
    if isSeqAt ['r', 'a', 'n', 'g', 'e', '('] (c :: rest) then
      let afterOpen := (c :: rest).drop 6
      let digits := afterOpen.takeWhile (fun d => d.isDigit)
      let after := afterOpen.dropWhile (fun d => d.isDigit)
      match digits, after with
      | _ :: _, ')' :: tail => '[' :: ']' :: replaceRangeAux fuel tail
      | _, _ => c :: replaceRangeAux fuel rest
    else c :: replaceRangeAux fuel rest

/-- `content.replace(range-regex, "[]")` applied globally. -/
def replaceRange (s : String) : String :=
  String.mk (replaceRangeAux (s.toList.length + 1) s.toList)

/-! ## A model of `JSON.parse`

Strict JSON grammar: the value kinds, string escapes, the strict number
grammar, no trailing content. `none` models the `SyntaxError` throw. -/

/-- Value of a hexadecimal digit. -/
def hexVal (c : Char) : Option Nat :=
  if c.isDigit then some (c.toNat - 48)
  else if 'a' ≤ c && c ≤ 'f' then some (c.toNat - 87)
  else if 'A' ≤ c && c ≤ 'F' then some (c.toNat - 55)
  else none

/-- Parse the body of a JSON string literal (after the opening quote),
accumulating decoded characters in reverse. -/
def pStringAux (acc : List Char) (cs : List Char) : Option (String × List Char) :=
  match cs with
  | [] => none
  | c :: rest =>
    if c == '"' then some (String.mk acc.reverse, rest)
    else if c == '\\' then
      match rest with
      | [] => none
      | e :: r2 =>
        if e == '"' then pStringAux ('"' :: acc) r2
        else if e == '\\' then pStringAux ('\\' :: acc) r2
        else if e == '/' then pStringAux ('/' :: acc) r2
        else if e == 'b' then pStringAux (Char.ofNat 8 :: acc) r2
        else if e == 'f' then pStringAux (Char.ofNat 12 :: acc) r2
        else if e == 'n' then pStringAux ('\n' :: acc) r2
        else if e == 'r' then pStringAux ('\r' :: acc) r2
        else if e == 't' then pStringAux ('\t' :: acc) r2
        else if e == 'u' then
          match r2 with
          | h1 :: h2 :: h3 :: h4 :: r3 =>
            match hexVal h1, hexVal h2, hexVal h3, hexVal h4 with
            | some a, some b, some c3, some d =>
              pStringAux (Char.ofNat (a * 4096 + b * 256 + c3 * 16 + d) :: acc) r3
            | _, _, _, _ => none
          | _ => none
        else none
    else if c.toNat < 32 then none
    else pStringAux (c :: acc) rest
  termination_by structural cs

/-- Parse the integer part of a JSON number: a bare `0` or a nonzero-led
digit run. -/
def pNumInt : List Char → Option (List Char × List Char)
  | [] => none
  | c :: r =>
    if c == '0' then some (['0'], r)
    else if c.isDigit then
      some (c :: r.takeWhile (fun d => d.isDigit), r.dropWhile (fun d => d.isDigit))
    else none

/-- Parse an optional fraction part `.digits`. -/
def pNumFrac (cs : List Char) : List Char × List Char :=
  match cs with
  | '.' :: r2 =>
    match r2.takeWhile (fun d => d.isDigit) with
    | [] => ([], cs)
    | ds => ('.' :: ds, r2.dropWhile (fun d => d.isDigit))
  | _ => ([], cs)

/-- Parse an optional exponent part `e` / `E`, optional sign, digits. -/
def pNumExp (cs : List Char) : List Char × List Char :=
  match cs with
  | e :: r3 =>
    if e == 'e' || e == 'E' then
      let signExp : List Char × List Char :=
        match r3 with
        | s :: r4 => if s == '+' || s == '-' then ([s], r4) else ([], r3)
        | [] => ([], r3)
      match signExp.2.takeWhile (fun d => d.isDigit) with
      | [] => ([], cs)
      | ds => (e :: (signExp.1 ++ ds), signExp.2.dropWhile (fun d => d.isDigit))
    else ([], cs)
  | [] => ([], cs)

/-- Parse a JSON number lexeme: sign, integer part, optional fraction and
exponent; returns the lexeme and the rest. -/
def pNum (cs : List Char) : Option (String × List Char) :=
  let sgnRest : List Char × List Char :=
    match cs with
    | '-' :: r => (['-'], r)
    | _ => ([], cs)
  match pNumInt sgnRest.2 with
  | none => none
  | some (ip, rest1) =>
    let fr := pNumFrac rest1
    let ex := pNumExp fr.2
    some (String.mk (sgnRest.1 ++ ip ++ fr.1 ++ ex.1), ex.2)

/-- Skip inter-token JSON whitespace. -/
def skipWs (cs : List Char) : List Char := cs.dropWhile jsonWs

mutual

/-- Parse one JSON value (fuel-indexed recursive descent). -/
def pVal : Nat → List Char → Option (Js × List Char)
  | 0, _ => none
  | fuel + 1, cs =>
    match skipWs cs with
    | [] => none
    | c :: rest =>
      if c == '"' then (pStringAux [] rest).map fun p => (Js.str p.1, p.2)
      else if c == '{' then pObj fuel (skipWs rest)
      else if c == '[' then pArr fuel (skipWs rest)
      else if c == 't' then
        if isSeqAt ['r', 'u', 'e'] rest then some (Js.bool true, rest.drop 3) else none
      else if c == 'f' then
        if isSeqAt ['a', 'l', 's', 'e'] rest then some (Js.bool false, rest.drop 4) else none
      else if c == 'n' then
        if isSeqAt ['u', 'l', 'l'] rest then some (Js.null, rest.drop 3) else none
      else (pNum (c :: rest)).map fun p => (Js.num p.1, p.2)

/-- Parse an array body (after `[` and whitespace). -/
def pArr : Nat → List Char → Option (Js × List Char)
  | 0, _ => none
  | fuel + 1, cs =>
    match cs with
    | ']' :: rest => some (Js.arr [], rest)
    | _ =>
      match pVal fuel cs with
      | none => none
      | some (v, r) => pArrRest fuel [v] r

/-- Parse the continuation of an array: `, value` or `]`. -/
def pArrRest : Nat → List Js → List Char → Option (Js × List Char)
  | 0, _, _ => none
  | fuel + 1, acc, cs =>
    match skipWs cs with
    | ',' :: rest =>
      match pVal fuel rest with
      | none => none
      | some (v, r) => pArrRest fuel (acc ++ [v]) r
    | ']' :: rest => some (Js.arr acc, rest)
    | _ => none

/-- Parse an object body (after `\x7b` and whitespace). -/
def pObj : Nat → List Char → Option (Js × List Char)
  | 0, _ => none
  | fuel + 1, cs =>
    match cs with
    | '}' :: rest => some (Js.obj [], rest)
    | '"' :: rest =>
      match pStringAux [] rest with
      | none => none
      | some (k, r) =>
        match skipWs r with
        | ':' :: r2 =>
          match pVal fuel r2 with
          | none => none
          | some (v, r3) => pObjRest fuel [(k, v)] r3
        | _ => none
    | _ => none

/-- Parse the continuation of an object: `, "key": value` or `\x7d`. -/
def pObjRest : Nat → List (String × Js) → List Char → Option (Js × List Char)
  | 0, _, _ => none
  | fuel + 1, acc, cs =>
    match skipWs cs with
    | ',' :: rest =>
      match skipWs rest with
      | '"' :: r1 =>
        match pStringAux [] r1 with
        | none => none
        | some (k, r2) =>
          match skipWs r2 with
          | ':' :: r3 =>
            match pVal fuel r3 with
            | none => none
            | some (v, r4) => pObjRest fuel (acc ++ [(k, v)]) r4
          | _ => none
      | _ => none
    | '}' :: rest => some (Js.obj acc, rest)
    | _ => none

end

/-- The model of `JSON.parse`: `none` is the thrown `SyntaxError`. -/
def jsonParse (s : String) : Option Js :=
  match pVal (2 * s.toList.length + 8) s.toList with
  | some (v, rest) => if (skipWs rest).isEmpty then some v else none
  | none => none

/-! ## The OpenAI service layer

Each method sends a task prompt (external I/O, not modelled) and normalizes
the raw text of the first response choice.  `GwResult` is the oracle for the
provider call: `ok content` is `response.choices[0]?.message?.content` (with
a falsy content collapsed to the empty string), `err` is a thrown transport
or API error.  Each method's own `try/catch` turns a throw anywhere inside
it into the task's default failure value, so the methods never throw. -/

/-- Outcome of the provider call as seen inside a service method. -/
inductive GwResult where
  | ok (content : String)
  | err

/-- `response.choices[0]?.message?.content || "\x7b\x7d"`. -/
def contentOrEmptyObj (content : String) : String :=
  if content.isEmpty then "\x7b\x7d" else content

namespace OpenAIService

/-- The catch-branch value of `analyzeCode`. -/
def defaultAnalyzeFailure : Js :=
  .obj [
    ("algorithmAnalysis", .obj [
      ("approachIdentified", .str "Analysis failed"),
      ("optimizationTips", .arr [.str "Could not analyze code"]),
      ("edgeCasesFeedback", .arr [.str "Analysis unavailable"]),
      ("alternativeApproaches", .arr [])]),
    ("analysisText", .str "Error performing code analysis"),
    ("error", .bool true)]

/-- `OpenAIService.analyzeCode`: sanitize, `JSON.parse`, coerce with `||`
defaults; any throw (transport, parse, property access on `null`) is caught
and yields the default failure value. -/
def analyzeCode (gw : GwResult) : Js :=
  match gw with
  | .err => defaultAnalyzeFailure
  | .ok content =>
    match jsonParse (sanitizeJsonResponse (contentOrEmptyObj content)) with
    | none => defaultAnalyzeFailure
    | some d =>
      if d.isNull then defaultAnalyzeFailure
      else
        .obj [
          ("algorithmAnalysis", .obj [
            ("approachIdentified", jsOr (jget d "approachIdentified") (.str "Unknown approach")),
            ("optimizationTips", jsOr (jget d "optimizationTips") (.arr [])),
            ("edgeCasesFeedback", jsOr (jget d "edgeCasesFeedback") (.arr [])),
            ("alternativeApproaches", jsOr (jget d "alternativeApproaches") (.arr []))]),
          ("analysisText", jsOr (jget d "detailedAnalysis") (.str "No detailed analysis available"))]

/-- The catch-branch value of `analyzeComplexity`. -/
def defaultComplexityFailure : Js :=
  .obj [
    ("complexityAnalysis", .obj [
      ("timeComplexity", .obj [
        ("bestCase", .str "Analysis failed"),
        ("averageCase", .str "Analysis failed"),
        ("worstCase", .str "Analysis failed")]),
      ("spaceComplexity", .str "Analysis failed"),
      ("criticalOperations", .arr []),
      ("comparisonToOptimal", .str "Could not compare to optimal solution")]),
    ("analysisText", .str "Error performing complexity analysis"),
    ("error", .bool true)]

/-- Default `timeComplexity` object used when the parsed field is falsy. -/
def unknownTimeComplexity : Js :=
  .obj [("bestCase", .str "Unknown"), ("averageCase", .str "Unknown"),
        ("worstCase", .str "Unknown")]

/-- `OpenAIService.analyzeComplexity`. -/
def analyzeComplexity (gw : GwResult) : Js :=
  match gw with
  | .err => defaultComplexityFailure
  | .ok content =>
    match jsonParse (sanitizeJsonResponse (contentOrEmptyObj content)) with
    | none => defaultComplexityFailure
    | some d =>
      if d.isNull then defaultComplexityFailure
      else
        .obj [
          ("complexityAnalysis", .obj [
            ("timeComplexity", jsOr (jget d "timeComplexity") unknownTimeComplexity),
            ("spaceComplexity", jsOr (jget d "spaceComplexity") (.str "Unknown")),
            ("criticalOperations", jsOr (jget d "criticalOperations") (.arr [])),
            ("comparisonToOptimal", jsOr (jget d "comparisonToOptimal") (.str "Unknown"))]),
          ("analysisText", jsOr (jget d "detailedAnalysis") (.str "No detailed analysis available"))]

/-- The catch-branch value of `optimizeCode`. -/
def defaultOptimizeFailure : Js :=
  .obj [
    ("optimizationSuggestions", .obj [
      ("optimizedCode", .str "Optimization failed"),
      ("improvements", .arr [.obj [
        ("description", .str "Could not optimize code"),
        ("complexityBefore", .str "Unknown"),
        ("complexityAfter", .str "Unknown"),
        ("algorithmicChange", .str "None")]])]),
    ("analysisText", .str "Error performing code optimization"),
    ("error", .bool true)]

/-- `OpenAIService.optimizeCode` (the focus argument only shapes the prompt,
which is external, so it does not appear here). -/
def optimizeCode (gw : GwResult) : Js :=
  match gw with
  | .err => defaultOptimizeFailure
  | .ok content =>
    match jsonParse (sanitizeJsonResponse (contentOrEmptyObj content)) with
    | none => defaultOptimizeFailure
    | some d =>
      if d.isNull then defaultOptimizeFailure
      else
        .obj [
          ("optimizationSuggestions", .obj [
            ("optimizedCode", jsOr (jget d "optimizedCode") (.str "No optimized code available")),
            ("improvements", jsOr (jget d "improvements") (.arr []))]),
          ("analysisText", jsOr (jget d "explanationText") (.str "No optimization explanation available"))]

/-- The hard-coded sample test case of the outer catch of `generateTestCases`. -/
def sampleFailTestCase : Js :=
  .obj [
    ("input", .obj [("sample", .str "input")]),
    ("expectedOutput", .str "sample output"),
    ("purpose", .str "Test case generation failed"),
    ("difficulty", .str "easy"),
    ("performanceTest", .bool false)]

/-- The outer catch value of `generateTestCases` (provider call threw). -/
def defaultTestCasesFailure : Js :=
  .obj [
    ("testCases", .arr [sampleFailTestCase]),
    ("analysisText", .str "Error generating test cases"),
    ("error", .bool true)]

/-- The inner catch value of `generateTestCases` (JSON parse threw). -/
def parseFailTestCaseData : Js :=
  .obj [("testCases", .arr []),
        ("explanationText", .str "Failed to parse response as JSON")]

/-- `OpenAIService.generateTestCases`: sanitize, blank out comprehension-like
and range-like array constructs, parse once, coerce a truthy non-array
`testCases` to `[]`; an inner parse throw yields the inner-catch data, an
outer provider throw yields the sample failure value. -/
def generateTestCases (gw : GwResult) : Js :=
  match gw with
  | .err => defaultTestCasesFailure
  | .ok content =>
    let cleaned := replaceRange (replaceCompr (sanitizeJsonResponse (contentOrEmptyObj content)))
    let testCaseData : Js :=
      match jsonParse cleaned with
      | none => parseFailTestCaseData
      | some d =>
        if d.isNull then parseFailTestCaseData
        else
          match jget d "testCases" with
          | some tc => if tc.truthy && !tc.isArr then jset d "testCases" (.arr []) else d
          | none => d
    .obj [
      ("testCases", jsOr (jget testCaseData "testCases") (.arr [])),
      ("analysisText", jsOr (jget testCaseData "explanationText") (.str "No test case explanation available"))]

end OpenAIService

/-! ## The controller layer

`src/controllers/aiController.ts`: four task handlers over the persisted
`AIAnalysis` collection.  The store is the list of persisted records in
insertion order (`findOne` returns the first match); `GwResult` stands for
the single provider invocation a miss performs.  Each handler reports its
HTTP response, the store after the call, and whether the provider was
invoked. -/

/-- Truthiness of an optional string request field (absent or empty is falsy). -/
def truthyS : Option String → Bool
  | none => false
  | some s => !s.isEmpty

/-- Truthiness of an optional numeric request field (absent or zero is falsy). -/
def truthyN : Option Nat → Bool
  | none => false
  | some n => n != 0

/-- Truthiness of an optional JSON-valued request field. -/
def truthyJ : Option Js → Bool
  | none => false
  | some j => j.truthy

/-- The request-body fields read by the four handlers, plus `req.user`. -/
structure Req where
  user : Option String := none
  code : Option String := none
  language : Option String := none
  problemStatement : Option String := none
  problemType : Option String := none
  optimizationFocus : Option String := none
  constraints : Option Js := none
  solutionHint : Option String := none
  problemId : Option String := none
  interviewId : Option String := none
  questionId : Option Nat := none

/-- One persisted `AIAnalysis` document (schema of `src/models/AIAnalysis.ts`;
`testCases` defaults to the empty array as a mongoose array field). -/
structure AnalysisRecord where
  userId : String
  interviewId : Option String := none
  questionId : Option Nat := none
  problemId : Option String := none
  code : String := ""
  language : String := "none"
  analysisText : Js := .null
  algorithmAnalysis : Option Js := none
  complexityAnalysis : Option Js := none
  optimizationSuggestions : Option Js := none
  testCases : Js := .arr []

/-- The HTTP response a handler sends. -/
structure Resp where
  status : Nat
  success : Bool
  message : String
  data : Option Js := none

/-- Observable outcome of one handler invocation. -/
structure HOut where
  resp : Resp
  store : List AnalysisRecord
  calledModel : Bool

/-- Persist `save()` on the document returned by `findOne`: rewrite the first
record satisfying the query. -/
def updateFirst (p : AnalysisRecord → Bool) (f : AnalysisRecord → AnalysisRecord) :
    List AnalysisRecord → List AnalysisRecord
  | [] => []
  | r :: rs => if p r then f r :: rs else r :: updateFirst p f rs

/-- Filter `\x7buserId, interviewId, questionId, code\x7d`. -/
def qInterviewCode (u : String) (i : Option String) (q : Option Nat) (c : String)
    (r : AnalysisRecord) : Bool :=
  r.userId == u && r.interviewId == i && r.questionId == q && r.code == c

/-- Filter `\x7buserId, problemId, code\x7d`. -/
def qProblemCode (u : String) (p : Option String) (c : String) (r : AnalysisRecord) : Bool :=
  r.userId == u && r.problemId == p && r.code == c

/-- Filter `\x7buserId, interviewId, questionId\x7d` (test-case generation). -/
def qInterviewOnly (u : String) (i : Option String) (q : Option Nat)
    (r : AnalysisRecord) : Bool :=
  r.userId == u && r.interviewId == i && r.questionId == q

/-- Filter `\x7buserId, problemId\x7d` (test-case generation). -/
def qProblemOnly (u : String) (p : Option String) (r : AnalysisRecord) : Bool :=
  r.userId == u && r.problemId == p

/-- Scope fields of the record created on a cache miss:
`field: field || null` for each of the three identifiers. -/
def reqInterviewId (req : Req) : Option String :=
  if truthyS req.interviewId then req.interviewId else none

/-- `questionId: questionId || null` of a created record. -/
def reqQuestionId (req : Req) : Option Nat :=
  if truthyN req.questionId then req.questionId else none

/-- `problemId: problemId || null` of a created record. -/
def reqProblemId (req : Req) : Option String :=
  if truthyS req.problemId then req.problemId else none

/-- The `algorithmAnalysis` value destructured from the analyze service result. -/
def analyzeSlotValue (gw : GwResult) : Js :=
  (jget (OpenAIService.analyzeCode gw) "algorithmAnalysis").getD .null

/-- The `analysisText` value destructured from the analyze service result. -/
def analyzeTextValue (gw : GwResult) : Js :=
  (jget (OpenAIService.analyzeCode gw) "analysisText").getD .null

/-- The `complexityAnalysis` value destructured from the complexity result. -/
def complexitySlotValue (gw : GwResult) : Js :=
  (jget (OpenAIService.analyzeComplexity gw) "complexityAnalysis").getD .null

/-- The `analysisText` value destructured from the complexity result. -/
def complexityTextValue (gw : GwResult) : Js :=
  (jget (OpenAIService.analyzeComplexity gw) "analysisText").getD .null

/-- The `optimizationSuggestions` value destructured from the optimize result. -/
def optimizeSlotValue (gw : GwResult) : Js :=
  (jget (OpenAIService.optimizeCode gw) "optimizationSuggestions").getD .null

/-- The `analysisText` value destructured from the optimize result. -/
def optimizeTextValue (gw : GwResult) : Js :=
  (jget (OpenAIService.optimizeCode gw) "analysisText").getD .null

/-- The `testCases` value destructured from the test-case service result. -/
def testsSlotValue (gw : GwResult) : Js :=
  (jget (OpenAIService.generateTestCases gw) "testCases").getD .null

/-- The `analysisText` value destructured from the test-case service result. -/
def testsTextValue (gw : GwResult) : Js :=
  (jget (OpenAIService.generateTestCases gw) "analysisText").getD .null

/-- The cache query of the three code-keyed handlers, shared verbatim by
their source: interview pair if truthy, else problem id, else no lookup at
all (modelled as the never-matching filter, since nothing is queried). -/
def codeKeyedQry (u c : String) (req : Req) : AnalysisRecord → Bool :=
  if truthyS req.interviewId && truthyN req.questionId then
    qInterviewCode u req.interviewId req.questionId c
  else if truthyS req.problemId then
    qProblemCode u req.problemId c
  else fun _ => false

namespace AIController

/-- Miss continuation of `analyzeSolution`: invoke the service, write the
slot through (update the found record or create a new one), answer 200. -/
def analyzeMissPath (u c lang : String) (req : Req) (qry : AnalysisRecord → Bool)
    (hasExisting : Bool) (store : List AnalysisRecord) (gw : GwResult) : HOut :=
  let alg := analyzeSlotValue gw
  let txt := analyzeTextValue gw
  let store' :=
    if hasExisting then
      updateFirst qry (fun r => { r with algorithmAnalysis := some alg, analysisText := txt }) store
    else
      store ++ [{ userId := u,
                  interviewId := reqInterviewId req,
                  questionId := reqQuestionId req,
                  problemId := reqProblemId req,
                  code := c, language := lang,
                  analysisText := txt,
                  algorithmAnalysis := some alg }]
  ⟨⟨200, true, "Code analysis completed",
    some (.obj [("analysisText", txt), ("algorithmAnalysis", alg), ("fromCache", .bool false)])⟩,
   store', true⟩

/-- `analyzeSolution` (POST /api/ai/analyze-solution). -/
def analyzeSolution (req : Req) (store : List AnalysisRecord) (gw : GwResult) : HOut :=
  if !truthyS req.code || !truthyS req.language then
    ⟨⟨400, false, "Code and language are required", none⟩, store, false⟩
  else
    match req.user with
    | none => ⟨⟨401, false, "Authentication required", none⟩, store, false⟩
    | some u =>
      let c := req.code.getD ""
      let lang := req.language.getD ""
      let qry := codeKeyedQry u c req
      match store.find? qry with
      | some r =>
        if r.algorithmAnalysis.isSome then
          ⟨⟨200, true, "Cached code analysis retrieved",
            some (.obj [("analysisText", r.analysisText),
                        ("algorithmAnalysis", r.algorithmAnalysis.getD .null),
                        ("fromCache", .bool true)])⟩, store, false⟩
        else analyzeMissPath u c lang req qry true store gw
      | none => analyzeMissPath u c lang req qry false store gw

/-- Miss continuation of `complexityAnalysis`. -/
def complexityMissPath (u c lang : String) (req : Req) (qry : AnalysisRecord → Bool)
    (hasExisting : Bool) (store : List AnalysisRecord) (gw : GwResult) : HOut :=
  let cx := complexitySlotValue gw
  let txt := complexityTextValue gw
  let store' :=
    if hasExisting then
      updateFirst qry (fun r => { r with complexityAnalysis := some cx, analysisText := txt }) store
    else
      store ++ [{ userId := u,
                  interviewId := reqInterviewId req,
                  questionId := reqQuestionId req,
                  problemId := reqProblemId req,
                  code := c, language := lang,
                  analysisText := txt,
                  complexityAnalysis := some cx }]
  ⟨⟨200, true, "Complexity analysis completed",
    some (.obj [("analysisText", txt), ("complexityAnalysis", cx), ("fromCache", .bool false)])⟩,
   store', true⟩

/-- `complexityAnalysis` (POST /api/ai/complexity-analysis). -/
def complexityAnalysis (req : Req) (store : List AnalysisRecord) (gw : GwResult) : HOut :=
  if !truthyS req.code || !truthyS req.language then
    ⟨⟨400, false, "Code and language are required", none⟩, store, false⟩
  else
    match req.user with
    | none => ⟨⟨401, false, "Authentication required", none⟩, store, false⟩
    | some u =>
      let c := req.code.getD ""
      let lang := req.language.getD ""
      let qry := codeKeyedQry u c req
      match store.find? qry with
      | some r =>
        if r.complexityAnalysis.isSome then
          ⟨⟨200, true, "Cached complexity analysis retrieved",
            some (.obj [("analysisText", r.analysisText),
                        ("complexityAnalysis", r.complexityAnalysis.getD .null),
                        ("fromCache", .bool true)])⟩, store, false⟩
        else complexityMissPath u c lang req qry true store gw
      | none => complexityMissPath u c lang req qry false store gw

/-- Miss continuation of `optimizeSolution`. -/
def optimizeMissPath (u c lang : String) (req : Req) (qry : AnalysisRecord → Bool)
    (hasExisting : Bool) (store : List AnalysisRecord) (gw : GwResult) : HOut :=
  let opt := optimizeSlotValue gw
  let txt := optimizeTextValue gw
  let store' :=
    if hasExisting then
      updateFirst qry
        (fun r => { r with optimizationSuggestions := some opt, analysisText := txt }) store
    else
      store ++ [{ userId := u,
                  interviewId := reqInterviewId req,
                  questionId := reqQuestionId req,
                  problemId := reqProblemId req,
                  code := c, language := lang,
                  analysisText := txt,
                  optimizationSuggestions := some opt }]
  ⟨⟨200, true, "Solution optimization completed",
    some (.obj [("optimizationText", txt), ("optimizationSuggestions", opt),
                ("fromCache", .bool false)])⟩,
   store', true⟩

/-- `optimizeSolution` (POST /api/ai/optimize-solution). -/
def optimizeSolution (req : Req) (store : List AnalysisRecord) (gw : GwResult) : HOut :=
  if !truthyS req.code || !truthyS req.language || !truthyS req.problemStatement then
    ⟨⟨400, false, "Code, language, and problem statement are required", none⟩, store, false⟩
  else if !(req.optimizationFocus == some "time" || req.optimizationFocus == some "space") then
    ⟨⟨400, false, "Valid optimization focus (time or space) is required", none⟩, store, false⟩
  else
    match req.user with
    | none => ⟨⟨401, false, "Authentication required", none⟩, store, false⟩
    | some u =>
      let c := req.code.getD ""
      let lang := req.language.getD ""
      let qry := codeKeyedQry u c req
      match store.find? qry with
      | some r =>
        if r.optimizationSuggestions.isSome then
          ⟨⟨200, true, "Cached optimization suggestions retrieved",
            some (.obj [("optimizationText", r.analysisText),
                        ("optimizationSuggestions", r.optimizationSuggestions.getD .null),
                        ("fromCache", .bool true)])⟩, store, false⟩
        else optimizeMissPath u c lang req qry true store gw
      | none => optimizeMissPath u c lang req qry false store gw

/-- Miss continuation of `generateTestCases`: note the created record keeps
`code = ""` and `language = "none"`. -/
def testsMissPath (u : String) (req : Req) (qry : AnalysisRecord → Bool)
    (hasExisting : Bool) (store : List AnalysisRecord) (gw : GwResult) : HOut :=
  let tc := testsSlotValue gw
  let txt := testsTextValue gw
  let store' :=
    if hasExisting then
      updateFirst qry (fun r => { r with testCases := tc, analysisText := txt }) store
    else
      store ++ [{ userId := u,
                  interviewId := reqInterviewId req,
                  questionId := reqQuestionId req,
                  problemId := reqProblemId req,
                  code := "", language := "none",
                  analysisText := txt,
                  testCases := tc }]
  ⟨⟨200, true, "Test case generation completed",
    some (.obj [("testCasesText", txt), ("testCases", tc), ("fromCache", .bool false)])⟩,
   store', true⟩

/-- `generateTestCases` (POST /api/ai/generate-test-cases): the cache lookup
is keyed on owner and scope only, and an empty (or falsy) `testCases` slot
counts as a miss. -/
def generateTestCases (req : Req) (store : List AnalysisRecord) (gw : GwResult) : HOut :=
  if !truthyS req.problemStatement || !truthyJ req.constraints then
    ⟨⟨400, false, "Problem statement and constraints are required", none⟩, store, false⟩
  else
    match req.user with
    | none => ⟨⟨401, false, "Authentication required", none⟩, store, false⟩
    | some u =>
      if truthyS req.interviewId && truthyN req.questionId then
        let qry := qInterviewOnly u req.interviewId req.questionId
        match store.find? qry with
        | some r =>
          if r.testCases.truthy && r.testCases.len != 0 then
            ⟨⟨200, true, "Cached test cases retrieved",
              some (.obj [("testCasesText", r.analysisText), ("testCases", r.testCases),
                          ("fromCache", .bool true)])⟩, store, false⟩
          else testsMissPath u req qry true store gw
        | none => testsMissPath u req qry false store gw
      else if truthyS req.problemId then
        let qry := qProblemOnly u req.problemId
        match store.find? qry with
        | some r =>
          if r.testCases.truthy && r.testCases.len != 0 then
            ⟨⟨200, true, "Cached test cases retrieved",
              some (.obj [("testCasesText", r.analysisText), ("testCases", r.testCases),
                          ("fromCache", .bool true)])⟩, store, false⟩
          else testsMissPath u req qry true store gw
        | none => testsMissPath u req qry false store gw
      else
        ⟨⟨400, false, "Either interviewId + questionId or problemId is required", none⟩,
         store, false⟩

end AIController

/-! ## Response accessors and spec-side shape predicates -/

/-- Read a field of the response `data` object. -/
def dataField (o : HOut) (k : String) : Option Js :=
  match o.resp.data with
  | some d => jget d k
  | none => none

/-- The `fromCache` flag of the response `data`. -/
def fromCacheFlag (o : HOut) : Option Js := dataField o "fromCache"

/-- Is the value a JSON string? -/
def isStrJs : Js → Bool
  | .str _ => true
  | _ => false

/-- Is the value an array of strings? -/
def isArrOfStr : Js → Bool
  | .arr xs => xs.all isStrJs
  | _ => false

/-- Does the object have a string-valued field `k`? -/
def hasStrField (j : Js) (k : String) : Bool :=
  match jget j k with
  | some v => isStrJs v
  | none => false

/-- Modelled from the spec: the strict result shape of the `analyze` task —
`approachIdentified: string`, `optimizationTips: string[]`,
`edgeCasesFeedback: string[]`, `alternativeApproaches:
\x7bdescription, complexity, suitability\x7d[]`, plus a string free text.
Used to compare the normalizer's actual output against the spec's shape. -/
def specAnalyzeShape (result : Js) : Bool :=
  (match jget result "algorithmAnalysis" with
   | some a =>
     hasStrField a "approachIdentified"
     && (match jget a "optimizationTips" with
         | some v => isArrOfStr v
         | none => false)
     && (match jget a "edgeCasesFeedback" with
         | some v => isArrOfStr v
         | none => false)
     && (match jget a "alternativeApproaches" with
         | some (.arr xs) =>
           xs.all (fun x => hasStrField x "description" && hasStrField x "complexity"
                            && hasStrField x "suitability")
         | _ => false)
   | none => false)
  && (match jget result "analysisText" with
      | some v => isStrJs v
      | none => false)

/-! ## Store lemmas -/

theorem find?_decomp_updateFirst (p : AnalysisRecord → Bool) (f : AnalysisRecord → AnalysisRecord)
    {l : List AnalysisRecord} {r : AnalysisRecord} (h : l.find? p = some r) :
    ∃ pre post, l = pre ++ r :: post ∧ (∀ x ∈ pre, p x = false) ∧
      updateFirst p f l = pre ++ f r :: post := by
  induction l with
  | nil => simp at h
  | cons x xs ih =>
    by_cases hx : p x
    · rw [List.find?_cons_of_pos _ hx] at h
      injection h with h
      subst h
      exact ⟨[], xs, rfl, by simp, by simp [updateFirst, hx]⟩
    · rw [List.find?_cons_of_neg _ hx] at h
      obtain ⟨pre, post, h1, h2, h3⟩ := ih h
      refine ⟨x :: pre, post, by simp [h1], ?_, by simp [updateFirst, hx, h3]⟩
      intro y hy
      rcases List.mem_cons.mp hy with rfl | hy
      · simpa using hx
      · exact h2 y hy

theorem find?_append_none {p : AnalysisRecord → Bool} {l1 l2 : List AnalysisRecord}
    (h : l1.find? p = none) : (l1 ++ l2).find? p = l2.find? p := by
  induction l1 with
  | nil => simp
  | cons x xs ih =>
    by_cases hx : p x
    · rw [List.find?_cons_of_pos _ hx] at h
      simp at h
    · rw [List.find?_cons_of_neg _ hx] at h
      rw [List.cons_append, List.find?_cons_of_neg _ hx]
      exact ih h

/-- Store effect of `analyzeSolution`: unchanged, one record's slot and text
rewritten in place, or one record appended with the request-derived fields. -/
theorem analyze_store_shape (req : Req) (store : List AnalysisRecord) (gw : GwResult) :
    (AIController.analyzeSolution req store gw).store = store ∨
    (∃ pre r post, store = pre ++ r :: post ∧
      (AIController.analyzeSolution req store gw).store =
        pre ++ { r with algorithmAnalysis := some (analyzeSlotValue gw),
                        analysisText := analyzeTextValue gw } :: post) ∨
    (∃ u, req.user = some u ∧
      (AIController.analyzeSolution req store gw).store =
        store ++ [{ userId := u, interviewId := reqInterviewId req,
                    questionId := reqQuestionId req, problemId := reqProblemId req,
                    code := req.code.getD "", language := req.language.getD "",
                    analysisText := analyzeTextValue gw,
                    algorithmAnalysis := some (analyzeSlotValue gw) }]) := by
  cases h1 : (!truthyS req.code || !truthyS req.language) with
  | true => left; simp [AIController.analyzeSolution, h1]
  | false =>
    cases hu : req.user with
    | none => left; simp [AIController.analyzeSolution, h1, hu]
    | some u =>
      cases hf : store.find? (codeKeyedQry u (req.code.getD "") req) with
      | none =>
        right; right
        refine ⟨u, rfl, ?_⟩
        simp [AIController.analyzeSolution, h1, hu, hf, AIController.analyzeMissPath]
      | some r =>
        by_cases hs : r.algorithmAnalysis.isSome
        · left
          simp [AIController.analyzeSolution, h1, hu, hf, hs]
        · right; left
          obtain ⟨pre, post, hd, hpre, hupd⟩ :=
            find?_decomp_updateFirst _
              (fun x => { x with algorithmAnalysis := some (analyzeSlotValue gw),
                                 analysisText := analyzeTextValue gw }) hf
          refine ⟨pre, r, post, hd, ?_⟩
          simp [AIController.analyzeSolution, h1, hu, hf, hs, AIController.analyzeMissPath, hupd]

/-- Store effect of `complexityAnalysis` (same shape as analyze). -/
theorem complexity_store_shape (req : Req) (store : List AnalysisRecord) (gw : GwResult) :
    (AIController.complexityAnalysis req store gw).store = store ∨
    (∃ pre r post, store = pre ++ r :: post ∧
      (AIController.complexityAnalysis req store gw).store =
        pre ++ { r with complexityAnalysis := some (complexitySlotValue gw),
                        analysisText := complexityTextValue gw } :: post) ∨
    (∃ u, req.user = some u ∧
      (AIController.complexityAnalysis req store gw).store =
        store ++ [{ userId := u, interviewId := reqInterviewId req,
                    questionId := reqQuestionId req, problemId := reqProblemId req,
                    code := req.code.getD "", language := req.language.getD "",
                    analysisText := complexityTextValue gw,
                    complexityAnalysis := some (complexitySlotValue gw) }]) := by
  cases h1 : (!truthyS req.code || !truthyS req.language) with
  | true => left; simp [AIController.complexityAnalysis, h1]
  | false =>
    cases hu : req.user with
    | none => left; simp [AIController.complexityAnalysis, h1, hu]
    | some u =>
      cases hf : store.find? (codeKeyedQry u (req.code.getD "") req) with
      | none =>
        right; right
        refine ⟨u, rfl, ?_⟩
        simp [AIController.complexityAnalysis, h1, hu, hf, AIController.complexityMissPath]
      | some r =>
        by_cases hs : r.complexityAnalysis.isSome
        · left
          simp [AIController.complexityAnalysis, h1, hu, hf, hs]
        · right; left
          obtain ⟨pre, post, hd, hpre, hupd⟩ :=
            find?_decomp_updateFirst _
              (fun x => { x with complexityAnalysis := some (complexitySlotValue gw),
                                 analysisText := complexityTextValue gw }) hf
          refine ⟨pre, r, post, hd, ?_⟩
          simp [AIController.complexityAnalysis, h1, hu, hf, hs,
                AIController.complexityMissPath, hupd]

/-- Store effect of `optimizeSolution` (same shape as analyze). -/
theorem optimize_store_shape (req : Req) (store : List AnalysisRecord) (gw : GwResult) :
    (AIController.optimizeSolution req store gw).store = store ∨
    (∃ pre r post, store = pre ++ r :: post ∧
      (AIController.optimizeSolution req store gw).store =
        pre ++ { r with optimizationSuggestions := some (optimizeSlotValue gw),
                        analysisText := optimizeTextValue gw } :: post) ∨
    (∃ u, req.user = some u ∧
      (AIController.optimizeSolution req store gw).store =
        store ++ [{ userId := u, interviewId := reqInterviewId req,
                    questionId := reqQuestionId req, problemId := reqProblemId req,
                    code := req.code.getD "", language := req.language.getD "",
                    analysisText := optimizeTextValue gw,
                    optimizationSuggestions := some (optimizeSlotValue gw) }]) := by
  cases h1 : (!truthyS req.code || !truthyS req.language || !truthyS req.problemStatement) with
  | true => left; simp [AIController.optimizeSolution, h1]
  | false =>
    cases h2 : (req.optimizationFocus == some "time" || req.optimizationFocus == some "space") with
    | false => left; simp [AIController.optimizeSolution, h1, h2]
    | true =>
      cases hu : req.user with
      | none => left; simp [AIController.optimizeSolution, h1, h2, hu]
      | some u =>
        cases hf : store.find? (codeKeyedQry u (req.code.getD "") req) with
        | none =>
          right; right
          refine ⟨u, rfl, ?_⟩
          simp [AIController.optimizeSolution, h1, h2, hu, hf, AIController.optimizeMissPath]
        | some r =>
          by_cases hs : r.optimizationSuggestions.isSome
          · left
            simp [AIController.optimizeSolution, h1, h2, hu, hf, hs]
          · right; left
            obtain ⟨pre, post, hd, hpre, hupd⟩ :=
              find?_decomp_updateFirst _
                (fun x => { x with optimizationSuggestions := some (optimizeSlotValue gw),
                                   analysisText := optimizeTextValue gw }) hf
            refine ⟨pre, r, post, hd, ?_⟩
            simp [AIController.optimizeSolution, h1, h2, hu, hf, hs,
                  AIController.optimizeMissPath, hupd]

/-- Store effect of `generateTestCases` (the created record keeps `code = ""`
and `language = "none"`). -/
theorem tests_store_shape (req : Req) (store : List AnalysisRecord) (gw : GwResult) :
    (AIController.generateTestCases req store gw).store = store ∨
    (∃ pre r post, store = pre ++ r :: post ∧
      (AIController.generateTestCases req store gw).store =
        pre ++ { r with testCases := testsSlotValue gw,
                        analysisText := testsTextValue gw } :: post) ∨
    (∃ u, req.user = some u ∧
      (AIController.generateTestCases req store gw).store =
        store ++ [{ userId := u, interviewId := reqInterviewId req,
                    questionId := reqQuestionId req, problemId := reqProblemId req,
                    code := "", language := "none",
                    analysisText := testsTextValue gw,
                    testCases := testsSlotValue gw }]) := by
  cases h1 : (!truthyS req.problemStatement || !truthyJ req.constraints) with
  | true => left; simp [AIController.generateTestCases, h1]
  | false =>
    cases hu : req.user with
    | none => left; simp [AIController.generateTestCases, h1, hu]
    | some u =>
      cases h2 : (truthyS req.interviewId && truthyN req.questionId) with
      | true =>
        cases hf : store.find? (qInterviewOnly u req.interviewId req.questionId) with
        | none =>
          right; right
          refine ⟨u, rfl, ?_⟩
          simp [AIController.generateTestCases, h1, hu, h2, hf, AIController.testsMissPath]
        | some r =>
          cases hs : (r.testCases.truthy && r.testCases.len != 0) with
          | true => left; simp [AIController.generateTestCases, h1, hu, h2, hf, hs]
          | false =>
            right; left
            obtain ⟨pre, post, hd, hpre, hupd⟩ :=
              find?_decomp_updateFirst _
                (fun x => { x with testCases := testsSlotValue gw,
                                   analysisText := testsTextValue gw }) hf
            refine ⟨pre, r, post, hd, ?_⟩
            simp [AIController.generateTestCases, h1, hu, h2, hf, hs,
                  AIController.testsMissPath, hupd]
      | false =>
        cases h3 : truthyS req.problemId with
        | false => left; simp [AIController.generateTestCases, h1, hu, h2, h3]
        | true =>
          cases hf : store.find? (qProblemOnly u req.problemId) with
          | none =>
            right; right
            refine ⟨u, rfl, ?_⟩
            simp [AIController.generateTestCases, h1, hu, h2, h3, hf,
                  AIController.testsMissPath]
          | some r =>
            cases hs : (r.testCases.truthy && r.testCases.len != 0) with
            | true => left; simp [AIController.generateTestCases, h1, hu, h2, h3, hf, hs]
            | false =>
              right; left
              obtain ⟨pre, post, hd, hpre, hupd⟩ :=
                find?_decomp_updateFirst _
                  (fun x => { x with testCases := testsSlotValue gw,
                                     analysisText := testsTextValue gw }) hf
              refine ⟨pre, r, post, hd, ?_⟩
              simp [AIController.generateTestCases, h1, hu, h2, h3, hf, hs,
                    AIController.testsMissPath, hupd]

/-! ## Claims -/

/-- The scope triple of a record: interview pair and problem id. -/
def scopeOf (r : AnalysisRecord) : Option String × Option Nat × Option String :=
  (r.interviewId, r.questionId, r.problemId)

theorem scopeOf_cases {store out : List AnalysisRecord}
    (f : AnalysisRecord → AnalysisRecord) (sc : Option String × Option Nat × Option String)
    (hf : ∀ x, scopeOf (f x) = scopeOf x)
    (h : out = store ∨ (∃ pre r post, store = pre ++ r :: post ∧ out = pre ++ f r :: post) ∨
         (∃ nr, scopeOf nr = sc ∧ out = store ++ [nr])) :
    ∀ r' ∈ out, (∃ r ∈ store, scopeOf r' = scopeOf r) ∨ scopeOf r' = sc := by
  intro r' hr'
  rcases h with h | ⟨pre, r, post, hd, hout⟩ | ⟨nr, hnr, hout⟩
  · rw [h] at hr'
    exact Or.inl ⟨r', hr', rfl⟩
  · subst hd
    rw [hout] at hr'
    rcases List.mem_append.mp hr' with h1 | h2
    · exact Or.inl ⟨r', List.mem_append_left _ h1, rfl⟩
    · rcases List.mem_cons.mp h2 with rfl | h3
      · exact Or.inl ⟨r, List.mem_append_right _ (List.mem_cons_self _ _), hf r⟩
      · exact Or.inl ⟨r', List.mem_append_right _ (List.mem_cons_of_mem _ h3), rfl⟩
  · rw [hout] at hr'
    rcases List.mem_append.mp hr' with h1 | h2
    · exact Or.inl ⟨r', h1, rfl⟩
    · rcases List.mem_cons.mp h2 with rfl | h3
      · exact Or.inr hnr
      · simp at h3

/-- C9: when a task handler leaves the store the same size (so no record was
created), either nothing was written, or exactly one existing record was
rewritten, and the rewrite touches only that task's result slot and the
shared `analysisText`: owner, scope, code, language and the other three
result slots are those of the original record, and every other record is
untouched. -/
theorem claim_C9_write_through_frame (req : Req) (store : List AnalysisRecord) (gw : GwResult) :
    ((AIController.analyzeSolution req store gw).store.length = store.length →
      (AIController.analyzeSolution req store gw).store = store ∨
      ∃ pre r post, store = pre ++ r :: post ∧
        (AIController.analyzeSolution req store gw).store =
          pre ++ { r with algorithmAnalysis := some (analyzeSlotValue gw),
                          analysisText := analyzeTextValue gw } :: post) ∧
    ((AIController.complexityAnalysis req store gw).store.length = store.length →
      (AIController.complexityAnalysis req store gw).store = store ∨
      ∃ pre r post, store = pre ++ r :: post ∧
        (AIController.complexityAnalysis req store gw).store =
          pre ++ { r with complexityAnalysis := some (complexitySlotValue gw),
                          analysisText := complexityTextValue gw } :: post) ∧
    ((AIController.optimizeSolution req store gw).store.length = store.length →
      (AIController.optimizeSolution req store gw).store = store ∨
      ∃ pre r post, store = pre ++ r :: post ∧
        (AIController.optimizeSolution req store gw).store =
          pre ++ { r with optimizationSuggestions := some (optimizeSlotValue gw),
                          analysisText := optimizeTextValue gw } :: post) ∧
    ((AIController.generateTestCases req store gw).store.length = store.length →
      (AIController.generateTestCases req store gw).store = store ∨
      ∃ pre r post, store = pre ++ r :: post ∧
        (AIController.generateTestCases req store gw).store =
          pre ++ { r with testCases := testsSlotValue gw,
                          analysisText := testsTextValue gw } :: post) := by
  refine ⟨fun hlen => ?_, fun hlen => ?_, fun hlen => ?_, fun hlen => ?_⟩
  · rcases analyze_store_shape req store gw with h | h | ⟨u, hu, h⟩
    · exact Or.inl h
    · exact Or.inr h
    · rw [h] at hlen
      simp at hlen
  · rcases complexity_store_shape req store gw with h | h | ⟨u, hu, h⟩
    · exact Or.inl h
    · exact Or.inr h
    · rw [h] at hlen
      simp at hlen
  · rcases optimize_store_shape req store gw with h | h | ⟨u, hu, h⟩
    · exact Or.inl h
    · exact Or.inr h
    · rw [h] at hlen
      simp at hlen
  · rcases tests_store_shape req store gw with h | h | ⟨u, hu, h⟩
    · exact Or.inl h
    · exact Or.inr h
    · rw [h] at hlen
      simp at hlen

/-- Fixture request for the C9 witness. -/
def w9req : Req :=
  { user := some "U", code := some "x", language := some "js", problemId := some "P" }

/-- Fixture store for the C9 witness: one matching record with an unrelated
slot populated. -/
def w9store : List AnalysisRecord :=
  [{ userId := "U", problemId := some "P", code := "x", language := "js",
     complexityAnalysis := some (.str "kept") }]

theorem claim_C9_witness :
    (AIController.analyzeSolution w9req w9store .err).store.length = w9store.length ∧
    ((AIController.analyzeSolution w9req w9store .err).store = w9store ∨
      ∃ pre r post, w9store = pre ++ r :: post ∧
        (AIController.analyzeSolution w9req w9store .err).store =
          pre ++ { r with algorithmAnalysis := some (analyzeSlotValue .err),
                          analysisText := analyzeTextValue .err } :: post) :=
  ⟨rfl, (claim_C9_write_through_frame w9req w9store .err).1 rfl⟩

/-- C8 counterexample: a single analyze request that carries the interview
pair and a problem id together creates one record with BOTH scope kinds
populated, and a scopeless analyze request creates one record with NEITHER,
refuting "exactly one scope kind is populated per record". -/
theorem claim_C8_counterexample :
    (AIController.analyzeSolution
        { user := some "U", code := some "x", language := some "js",
          problemId := some "P", interviewId := some "I", questionId := some 3 }
        [] .err).store.map
      (fun r => r.interviewId.isSome && r.questionId.isSome && r.problemId.isSome) = [true] ∧
    (AIController.analyzeSolution
        { user := some "U", code := some "x", language := some "js" }
        [] .err).store.map
      (fun r => r.interviewId.isSome || r.questionId.isSome || r.problemId.isSome) = [false] :=
  ⟨rfl, rfl⟩

/-- C8 (amended): scope fields of an existing record are never modified by
any of the four handlers, but record creation does not enforce "exactly one
scope kind": a created record copies whichever truthy scope identifiers the
request carries (possibly both kinds, possibly neither). -/
theorem claim_C8_scope_provenance (req : Req) (store : List AnalysisRecord) (gw : GwResult) :
    (∀ r' ∈ (AIController.analyzeSolution req store gw).store,
      (∃ r ∈ store, scopeOf r' = scopeOf r) ∨
      scopeOf r' = (reqInterviewId req, reqQuestionId req, reqProblemId req)) ∧
    (∀ r' ∈ (AIController.complexityAnalysis req store gw).store,
      (∃ r ∈ store, scopeOf r' = scopeOf r) ∨
      scopeOf r' = (reqInterviewId req, reqQuestionId req, reqProblemId req)) ∧
    (∀ r' ∈ (AIController.optimizeSolution req store gw).store,
      (∃ r ∈ store, scopeOf r' = scopeOf r) ∨
      scopeOf r' = (reqInterviewId req, reqQuestionId req, reqProblemId req)) ∧
    (∀ r' ∈ (AIController.generateTestCases req store gw).store,
      (∃ r ∈ store, scopeOf r' = scopeOf r) ∨
      scopeOf r' = (reqInterviewId req, reqQuestionId req, reqProblemId req)) := by
  refine ⟨?_, ?_, ?_, ?_⟩
  · refine scopeOf_cases
      (fun x => { x with algorithmAnalysis := some (analyzeSlotValue gw),
                         analysisText := analyzeTextValue gw }) _ (fun x => rfl) ?_
    rcases analyze_store_shape req store gw with h | h | ⟨u, hu, h⟩
    · exact Or.inl h
    · exact Or.inr (Or.inl h)
    · refine Or.inr (Or.inr ⟨_, ?_, h⟩)
      rfl
  · refine scopeOf_cases
      (fun x => { x with complexityAnalysis := some (complexitySlotValue gw),
                         analysisText := complexityTextValue gw }) _ (fun x => rfl) ?_
    rcases complexity_store_shape req store gw with h | h | ⟨u, hu, h⟩
    · exact Or.inl h
    · exact Or.inr (Or.inl h)
    · refine Or.inr (Or.inr ⟨_, ?_, h⟩)
      rfl
  · refine scopeOf_cases
      (fun x => { x with optimizationSuggestions := some (optimizeSlotValue gw),
                         analysisText := optimizeTextValue gw }) _ (fun x => rfl) ?_
    rcases optimize_store_shape req store gw with h | h | ⟨u, hu, h⟩
    · exact Or.inl h
    · exact Or.inr (Or.inl h)
    · refine Or.inr (Or.inr ⟨_, ?_, h⟩)
      rfl
  · refine scopeOf_cases
      (fun x => { x with testCases := testsSlotValue gw,
                         analysisText := testsTextValue gw }) _ (fun x => rfl) ?_
    rcases tests_store_shape req store gw with h | h | ⟨u, hu, h⟩
    · exact Or.inl h
    · exact Or.inr (Or.inl h)
    · refine Or.inr (Or.inr ⟨_, ?_, h⟩)
      rfl

/-- Fixture request for the C8 witness: both scope kinds supplied. -/
def w8req : Req :=
  { user := some "U", code := some "x", language := some "js",
    problemId := some "P", interviewId := some "I", questionId := some 3 }

/-- The record the C8 witness request creates. -/
def w8rec : AnalysisRecord :=
  { userId := "U", interviewId := some "I", questionId := some 3, problemId := some "P",
    code := "x", language := "js", analysisText := analyzeTextValue .err,
    algorithmAnalysis := some (analyzeSlotValue .err) }

theorem claim_C8_witness :
    (AIController.analyzeSolution w8req [] .err).store = [w8rec] ∧
    ((∃ r ∈ ([] : List AnalysisRecord), scopeOf w8rec = scopeOf r) ∨
      scopeOf w8rec = (reqInterviewId w8req, reqQuestionId w8req, reqProblemId w8req)) :=
  ⟨rfl, (claim_C8_scope_provenance w8req [] .err).1 w8rec (by exact List.Mem.head [])⟩

/-- C10: in every handler the required-field check runs before the
authentication check, so an unauthenticated request that is missing a
required task field gets HTTP 400 (not 401), with the store untouched and
no model call. -/
theorem claim_C10_validation_before_auth (req : Req) (store : List AnalysisRecord)
    (gw : GwResult) (_hu : req.user = none) :
    ((!truthyS req.code || !truthyS req.language) = true →
      (AIController.analyzeSolution req store gw).resp.status = 400 ∧
      (AIController.analyzeSolution req store gw).store = store ∧
      (AIController.analyzeSolution req store gw).calledModel = false) ∧
    ((!truthyS req.code || !truthyS req.language) = true →
      (AIController.complexityAnalysis req store gw).resp.status = 400 ∧
      (AIController.complexityAnalysis req store gw).store = store ∧
      (AIController.complexityAnalysis req store gw).calledModel = false) ∧
    ((!truthyS req.code || !truthyS req.language || !truthyS req.problemStatement) = true →
      (AIController.optimizeSolution req store gw).resp.status = 400 ∧
      (AIController.optimizeSolution req store gw).store = store ∧
      (AIController.optimizeSolution req store gw).calledModel = false) ∧
    ((!truthyS req.problemStatement || !truthyJ req.constraints) = true →
      (AIController.generateTestCases req store gw).resp.status = 400 ∧
      (AIController.generateTestCases req store gw).store = store ∧
      (AIController.generateTestCases req store gw).calledModel = false) := by
  refine ⟨fun h => ?_, fun h => ?_, fun h => ?_, fun h => ?_⟩
  · exact ⟨by simp [AIController.analyzeSolution, h],
           by simp [AIController.analyzeSolution, h],
           by simp [AIController.analyzeSolution, h]⟩
  · exact ⟨by simp [AIController.complexityAnalysis, h],
           by simp [AIController.complexityAnalysis, h],
           by simp [AIController.complexityAnalysis, h]⟩
  · exact ⟨by simp [AIController.optimizeSolution, h],
           by simp [AIController.optimizeSolution, h],
           by simp [AIController.optimizeSolution, h]⟩
  · exact ⟨by simp [AIController.generateTestCases, h],
           by simp [AIController.generateTestCases, h],
           by simp [AIController.generateTestCases, h]⟩

/-- Fixture request for the C10 witness: unauthenticated, `code`,
`problemStatement` and `constraints` all missing. -/
def w10req : Req := { language := some "js" }

theorem claim_C10_witness :
    ((AIController.analyzeSolution w10req [] .err).resp.status = 400 ∧
      (AIController.analyzeSolution w10req [] .err).store = [] ∧
      (AIController.analyzeSolution w10req [] .err).calledModel = false) ∧
    ((AIController.generateTestCases w10req [] .err).resp.status = 400 ∧
      (AIController.generateTestCases w10req [] .err).store = [] ∧
      (AIController.generateTestCases w10req [] .err).calledModel = false) :=
  ⟨(claim_C10_validation_before_auth w10req [] .err rfl).1 (by decide),
   (claim_C10_validation_before_auth w10req [] .err rfl).2.2.2 (by decide)⟩

/-- C6 counterexample: an authenticated analyze request with code and
language but with NEITHER scope form present is not rejected with HTTP 400 —
it returns 200 and invokes the model, refuting "for every task, the request
fails with InvalidInput whenever neither scope form is present". -/
theorem claim_C6_counterexample :
    (AIController.analyzeSolution
        { user := some "U", code := some "x", language := some "js" } [] .err).resp.status = 200 ∧
    (AIController.analyzeSolution
        { user := some "U", code := some "x", language := some "js" } [] .err).calledModel = true :=
  ⟨rfl, rfl⟩

/-- C6 (amended): missing task-required fields yield HTTP 400 with no store
write and no model call for every task, and an invalid `optimizationFocus`
likewise; but the missing-scope check exists only in `generateTestCases` —
the three code-keyed handlers accept a scopeless request and proceed to the
model (returning 200 and creating a scopeless record). -/
theorem claim_C6_invalid_input (req : Req) (store : List AnalysisRecord) (gw : GwResult) :
    ((!truthyS req.code || !truthyS req.language) = true →
      ((AIController.analyzeSolution req store gw).resp.status = 400 ∧
        (AIController.analyzeSolution req store gw).store = store ∧
        (AIController.analyzeSolution req store gw).calledModel = false) ∧
      ((AIController.complexityAnalysis req store gw).resp.status = 400 ∧
        (AIController.complexityAnalysis req store gw).store = store ∧
        (AIController.complexityAnalysis req store gw).calledModel = false)) ∧
    ((!truthyS req.code || !truthyS req.language || !truthyS req.problemStatement) = true →
      (AIController.optimizeSolution req store gw).resp.status = 400 ∧
      (AIController.optimizeSolution req store gw).store = store ∧
      (AIController.optimizeSolution req store gw).calledModel = false) ∧
    ((!truthyS req.code || !truthyS req.language || !truthyS req.problemStatement) = false →
      (req.optimizationFocus == some "time" || req.optimizationFocus == some "space") = false →
      (AIController.optimizeSolution req store gw).resp.status = 400 ∧
      (AIController.optimizeSolution req store gw).store = store ∧
      (AIController.optimizeSolution req store gw).calledModel = false) ∧
    ((!truthyS req.problemStatement || !truthyJ req.constraints) = true →
      (AIController.generateTestCases req store gw).resp.status = 400 ∧
      (AIController.generateTestCases req store gw).store = store ∧
      (AIController.generateTestCases req store gw).calledModel = false) ∧
    (∀ u, (!truthyS req.problemStatement || !truthyJ req.constraints) = false →
      req.user = some u →
      (truthyS req.interviewId && truthyN req.questionId) = false →
      truthyS req.problemId = false →
      (AIController.generateTestCases req store gw).resp.status = 400 ∧
      (AIController.generateTestCases req store gw).store = store ∧
      (AIController.generateTestCases req store gw).calledModel = false) ∧
    (∀ u, (!truthyS req.code || !truthyS req.language) = false →
      req.user = some u →
      (truthyS req.interviewId && truthyN req.questionId) = false →
      truthyS req.problemId = false →
      (AIController.analyzeSolution req store gw).resp.status = 200 ∧
      (AIController.analyzeSolution req store gw).calledModel = true) := by
  refine ⟨fun h => ⟨?_, ?_⟩, ?_, ?_, ?_, ?_, ?_⟩
  · exact ⟨by simp [AIController.analyzeSolution, h],
           by simp [AIController.analyzeSolution, h],
           by simp [AIController.analyzeSolution, h]⟩
  · exact ⟨by simp [AIController.complexityAnalysis, h],
           by simp [AIController.complexityAnalysis, h],
           by simp [AIController.complexityAnalysis, h]⟩
  · intro h
    exact ⟨by simp [AIController.optimizeSolution, h],
           by simp [AIController.optimizeSolution, h],
           by simp [AIController.optimizeSolution, h]⟩
  · intro h1 h2
    exact ⟨by simp [AIController.optimizeSolution, h1, h2],
           by simp [AIController.optimizeSolution, h1, h2],
           by simp [AIController.optimizeSolution, h1, h2]⟩
  · intro h
    exact ⟨by simp [AIController.generateTestCases, h],
           by simp [AIController.generateTestCases, h],
           by simp [AIController.generateTestCases, h]⟩
  · intro u h hu hi hp
    exact ⟨by simp [AIController.generateTestCases, h, hu, hi, hp],
           by simp [AIController.generateTestCases, h, hu, hi, hp],
           by simp [AIController.generateTestCases, h, hu, hi, hp]⟩
  · intro u h hu hi hp
    have hq : store.find? (codeKeyedQry u (req.code.getD "") req) = none := by
      rw [List.find?_eq_none]
      intro x _
      simp [codeKeyedQry, hi, hp]
    exact ⟨by simp [AIController.analyzeSolution, h, hu, hq, AIController.analyzeMissPath],
           by simp [AIController.analyzeSolution, h, hu, hq, AIController.analyzeMissPath]⟩

/-- Fixture request for the C6 witness: authenticated optimize request with
all required fields but an invalid focus value. -/
def w6req : Req :=
  { user := some "U", code := some "x", language := some "js",
    problemStatement := some "ps", optimizationFocus := some "speed",
    problemId := some "P" }

/-- Fixture request for the C6 witness: authenticated generateTests request
with required fields but neither scope form. -/
def w6treq : Req :=
  { user := some "U", problemStatement := some "ps", constraints := some (.str "c") }

theorem claim_C6_witness :
    ((AIController.optimizeSolution w6req [] .err).resp.status = 400 ∧
      (AIController.optimizeSolution w6req [] .err).store = [] ∧
      (AIController.optimizeSolution w6req [] .err).calledModel = false) ∧
    ((AIController.generateTestCases w6treq [] .err).resp.status = 400 ∧
      (AIController.generateTestCases w6treq [] .err).store = [] ∧
      (AIController.generateTestCases w6treq [] .err).calledModel = false) :=
  ⟨(claim_C6_invalid_input w6req [] .err).2.2.1 (by decide) (by decide),
   (claim_C6_invalid_input w6treq [] .err).2.2.2.2.1 "U" (by decide) rfl (by decide) (by decide)⟩

/-- C2 counterexample: on a provider failure the analyze handler answers
HTTP 200 with `success = true` — not `success = false` as claimed. -/
theorem claim_C2_counterexample :
    (AIController.analyzeSolution
        { user := some "U", code := some "x", language := some "js", problemId := some "P" }
        [] .err).resp.status = 200 ∧
    (AIController.analyzeSolution
        { user := some "U", code := some "x", language := some "js", problemId := some "P" }
        [] .err).resp.success = true :=
  ⟨rfl, rfl⟩

/-- C2 (amended): a provider failure is never surfaced as a 5xx — each
handler answers HTTP 200 with the task's default failure shape embedded in
`data` and `fromCache = false` — but with `success = true`, not
`success = false`. -/
theorem claim_C2_soft_failure_response (req : Req) :
    (∀ u, (!truthyS req.code || !truthyS req.language) = false → req.user = some u →
      (AIController.analyzeSolution req [] .err).resp.status = 200 ∧
      (AIController.analyzeSolution req [] .err).resp.success = true ∧
      dataField (AIController.analyzeSolution req [] .err) "algorithmAnalysis" =
        jget OpenAIService.defaultAnalyzeFailure "algorithmAnalysis" ∧
      fromCacheFlag (AIController.analyzeSolution req [] .err) = some (.bool false)) ∧
    (∀ u, (!truthyS req.code || !truthyS req.language) = false → req.user = some u →
      (AIController.complexityAnalysis req [] .err).resp.status = 200 ∧
      (AIController.complexityAnalysis req [] .err).resp.success = true ∧
      dataField (AIController.complexityAnalysis req [] .err) "complexityAnalysis" =
        jget OpenAIService.defaultComplexityFailure "complexityAnalysis" ∧
      fromCacheFlag (AIController.complexityAnalysis req [] .err) = some (.bool false)) ∧
    (∀ u, (!truthyS req.code || !truthyS req.language || !truthyS req.problemStatement) = false →
      (req.optimizationFocus == some "time" || req.optimizationFocus == some "space") = true →
      req.user = some u →
      (AIController.optimizeSolution req [] .err).resp.status = 200 ∧
      (AIController.optimizeSolution req [] .err).resp.success = true ∧
      dataField (AIController.optimizeSolution req [] .err) "optimizationSuggestions" =
        jget OpenAIService.defaultOptimizeFailure "optimizationSuggestions" ∧
      fromCacheFlag (AIController.optimizeSolution req [] .err) = some (.bool false)) ∧
    (∀ u, (!truthyS req.problemStatement || !truthyJ req.constraints) = false →
      req.user = some u →
      (truthyS req.interviewId && truthyN req.questionId) = true →
      (AIController.generateTestCases req [] .err).resp.status = 200 ∧
      (AIController.generateTestCases req [] .err).resp.success = true ∧
      dataField (AIController.generateTestCases req [] .err) "testCases" =
        jget OpenAIService.defaultTestCasesFailure "testCases" ∧
      fromCacheFlag (AIController.generateTestCases req [] .err) = some (.bool false)) := by
  refine ⟨fun u h hu => ?_, fun u h hu => ?_, fun u h1 h2 hu => ?_, fun u h hu hscope => ?_⟩
  · refine ⟨?_, ?_, ?_, ?_⟩ <;>
      (simp [AIController.analyzeSolution, h, hu, AIController.analyzeMissPath,
            dataField, fromCacheFlag, jget, lookLast, analyzeSlotValue, analyzeTextValue] <;> rfl)
  · refine ⟨?_, ?_, ?_, ?_⟩ <;>
      (simp [AIController.complexityAnalysis, h, hu, AIController.complexityMissPath,
            dataField, fromCacheFlag, jget, lookLast, complexitySlotValue, complexityTextValue] <;> rfl)
  · refine ⟨?_, ?_, ?_, ?_⟩ <;>
      (simp [AIController.optimizeSolution, h1, h2, hu, AIController.optimizeMissPath,
            dataField, fromCacheFlag, jget, lookLast, optimizeSlotValue, optimizeTextValue] <;> rfl)
  · refine ⟨?_, ?_, ?_, ?_⟩ <;>
      (simp [AIController.generateTestCases, h, hu, hscope, AIController.testsMissPath,
            dataField, fromCacheFlag, jget, lookLast, testsSlotValue, testsTextValue] <;> rfl)

/-- Fixture request for the C2 witness. -/
def w2req : Req :=
  { user := some "U", code := some "x", language := some "js", problemId := some "P" }

theorem claim_C2_witness :
    (AIController.analyzeSolution w2req [] .err).resp.status = 200 ∧
    (AIController.analyzeSolution w2req [] .err).resp.success = true ∧
    dataField (AIController.analyzeSolution w2req [] .err) "algorithmAnalysis" =
      jget OpenAIService.defaultAnalyzeFailure "algorithmAnalysis" ∧
    fromCacheFlag (AIController.analyzeSolution w2req [] .err) = some (.bool false) :=
  (claim_C2_soft_failure_response w2req).1 "U" (by decide) rfl

/-! ## Roundtrip lemmas: a fresh miss followed by an identical request -/

/-- A problem-scoped request for a code-keyed task. -/
def probReq (u c l p : String) : Req :=
  { user := some u, code := some c, language := some l, problemId := some p }

/-- The record a fresh analyze miss for `probReq` creates. -/
def analyzeRec (u c l p : String) (gw : GwResult) : AnalysisRecord :=
  { userId := u, problemId := some p, code := c, language := l,
    analysisText := analyzeTextValue gw, algorithmAnalysis := some (analyzeSlotValue gw) }

theorem analyze_fresh_roundtrip (u c l p : String) (gw gw2 : GwResult)
    (hc : c.isEmpty = false) (hl : l.isEmpty = false) (hp : p.isEmpty = false) :
    (AIController.analyzeSolution (probReq u c l p) [] gw).store = [analyzeRec u c l p gw] ∧
    fromCacheFlag (AIController.analyzeSolution (probReq u c l p) [] gw) = some (.bool false) ∧
    dataField (AIController.analyzeSolution (probReq u c l p) [] gw) "algorithmAnalysis" =
      some (analyzeSlotValue gw) ∧
    dataField (AIController.analyzeSolution (probReq u c l p) [] gw) "analysisText" =
      some (analyzeTextValue gw) ∧
    (AIController.analyzeSolution (probReq u c l p) [] gw).calledModel = true ∧
    fromCacheFlag (AIController.analyzeSolution (probReq u c l p) [analyzeRec u c l p gw] gw2) =
      some (.bool true) ∧
    dataField (AIController.analyzeSolution (probReq u c l p) [analyzeRec u c l p gw] gw2)
      "algorithmAnalysis" = some (analyzeSlotValue gw) ∧
    dataField (AIController.analyzeSolution (probReq u c l p) [analyzeRec u c l p gw] gw2)
      "analysisText" = some (analyzeTextValue gw) ∧
    (AIController.analyzeSolution (probReq u c l p) [analyzeRec u c l p gw] gw2).calledModel =
      false ∧
    (AIController.analyzeSolution (probReq u c l p) [analyzeRec u c l p gw] gw2).store =
      [analyzeRec u c l p gw] := by
  refine ⟨?_, ?_, ?_, ?_, ?_, ?_, ?_, ?_, ?_, ?_⟩ <;>
    simp [probReq, analyzeRec, AIController.analyzeSolution, AIController.analyzeMissPath,
          codeKeyedQry, qProblemCode, truthyS, truthyN, hc, hl, hp,
          List.find?, dataField, fromCacheFlag, jget, lookLast, reqInterviewId,
          reqQuestionId, reqProblemId]

/-- The record a fresh complexity miss for `probReq` creates. -/
def complexityRec (u c l p : String) (gw : GwResult) : AnalysisRecord :=
  { userId := u, problemId := some p, code := c, language := l,
    analysisText := complexityTextValue gw, complexityAnalysis := some (complexitySlotValue gw) }

theorem complexity_fresh_roundtrip (u c l p : String) (gw gw2 : GwResult)
    (hc : c.isEmpty = false) (hl : l.isEmpty = false) (hp : p.isEmpty = false) :
    (AIController.complexityAnalysis (probReq u c l p) [] gw).store =
      [complexityRec u c l p gw] ∧
    fromCacheFlag (AIController.complexityAnalysis (probReq u c l p) [] gw) =
      some (.bool false) ∧
    dataField (AIController.complexityAnalysis (probReq u c l p) [] gw) "complexityAnalysis" =
      some (complexitySlotValue gw) ∧
    dataField (AIController.complexityAnalysis (probReq u c l p) [] gw) "analysisText" =
      some (complexityTextValue gw) ∧
    (AIController.complexityAnalysis (probReq u c l p) [] gw).calledModel = true ∧
    fromCacheFlag
      (AIController.complexityAnalysis (probReq u c l p) [complexityRec u c l p gw] gw2) =
      some (.bool true) ∧
    dataField (AIController.complexityAnalysis (probReq u c l p) [complexityRec u c l p gw] gw2)
      "complexityAnalysis" = some (complexitySlotValue gw) ∧
    dataField (AIController.complexityAnalysis (probReq u c l p) [complexityRec u c l p gw] gw2)
      "analysisText" = some (complexityTextValue gw) ∧
    (AIController.complexityAnalysis (probReq u c l p)
      [complexityRec u c l p gw] gw2).calledModel = false ∧
    (AIController.complexityAnalysis (probReq u c l p) [complexityRec u c l p gw] gw2).store =
      [complexityRec u c l p gw] := by
  refine ⟨?_, ?_, ?_, ?_, ?_, ?_, ?_, ?_, ?_, ?_⟩ <;>
    simp [probReq, complexityRec, AIController.complexityAnalysis,
          AIController.complexityMissPath, codeKeyedQry, qProblemCode, truthyS, truthyN,
          hc, hl, hp, List.find?, dataField, fromCacheFlag, jget, lookLast, reqInterviewId,
          reqQuestionId, reqProblemId]

/-- A problem-scoped optimize request with focus `time`. -/
def optReq (u c l ps p : String) : Req :=
  { user := some u, code := some c, language := some l, problemStatement := some ps,
    optimizationFocus := some "time", problemId := some p }

/-- The record a fresh optimize miss for `optReq` creates. -/
def optimizeRec (u c l p : String) (gw : GwResult) : AnalysisRecord :=
  { userId := u, problemId := some p, code := c, language := l,
    analysisText := optimizeTextValue gw,
    optimizationSuggestions := some (optimizeSlotValue gw) }

theorem optimize_fresh_roundtrip (u c l ps p : String) (gw gw2 : GwResult)
    (hc : c.isEmpty = false) (hl : l.isEmpty = false) (hps : ps.isEmpty = false)
    (hp : p.isEmpty = false) :
    (AIController.optimizeSolution (optReq u c l ps p) [] gw).store =
      [optimizeRec u c l p gw] ∧
    fromCacheFlag (AIController.optimizeSolution (optReq u c l ps p) [] gw) =
      some (.bool false) ∧
    dataField (AIController.optimizeSolution (optReq u c l ps p) [] gw)
      "optimizationSuggestions" = some (optimizeSlotValue gw) ∧
    dataField (AIController.optimizeSolution (optReq u c l ps p) [] gw) "optimizationText" =
      some (optimizeTextValue gw) ∧
    (AIController.optimizeSolution (optReq u c l ps p) [] gw).calledModel = true ∧
    fromCacheFlag
      (AIController.optimizeSolution (optReq u c l ps p) [optimizeRec u c l p gw] gw2) =
      some (.bool true) ∧
    dataField (AIController.optimizeSolution (optReq u c l ps p) [optimizeRec u c l p gw] gw2)
      "optimizationSuggestions" = some (optimizeSlotValue gw) ∧
    dataField (AIController.optimizeSolution (optReq u c l ps p) [optimizeRec u c l p gw] gw2)
      "optimizationText" = some (optimizeTextValue gw) ∧
    (AIController.optimizeSolution (optReq u c l ps p)
      [optimizeRec u c l p gw] gw2).calledModel = false ∧
    (AIController.optimizeSolution (optReq u c l ps p) [optimizeRec u c l p gw] gw2).store =
      [optimizeRec u c l p gw] := by
  refine ⟨?_, ?_, ?_, ?_, ?_, ?_, ?_, ?_, ?_, ?_⟩ <;>
    simp [optReq, optimizeRec, AIController.optimizeSolution, AIController.optimizeMissPath,
          codeKeyedQry, qProblemCode, truthyS, truthyN, hc, hl, hps, hp,
          List.find?, dataField, fromCacheFlag, jget, lookLast, reqInterviewId,
          reqQuestionId, reqProblemId]

/-- An interview-scoped generate-tests request. -/
def intReq (u ps i : String) (q : Nat) (cs : Js) : Req :=
  { user := some u, problemStatement := some ps, constraints := some cs,
    interviewId := some i, questionId := some q }

/-- The record a fresh generate-tests miss for `intReq` creates. -/
def testsRec (u i : String) (q : Nat) (gw : GwResult) : AnalysisRecord :=
  { userId := u, interviewId := some i, questionId := some q, code := "", language := "none",
    analysisText := testsTextValue gw, testCases := testsSlotValue gw }

theorem tests_fresh_roundtrip (u ps i : String) (q : Nat) (cs : Js) (gw gw2 : GwResult)
    (hps : ps.isEmpty = false) (hcs : cs.truthy = true) (hi : i.isEmpty = false)
    (hq : (q != 0) = true)
    (htc : ((testsSlotValue gw).truthy && (testsSlotValue gw).len != 0) = true) :
    (AIController.generateTestCases (intReq u ps i q cs) [] gw).store =
      [testsRec u i q gw] ∧
    fromCacheFlag (AIController.generateTestCases (intReq u ps i q cs) [] gw) =
      some (.bool false) ∧
    dataField (AIController.generateTestCases (intReq u ps i q cs) [] gw) "testCases" =
      some (testsSlotValue gw) ∧
    dataField (AIController.generateTestCases (intReq u ps i q cs) [] gw) "testCasesText" =
      some (testsTextValue gw) ∧
    (AIController.generateTestCases (intReq u ps i q cs) [] gw).calledModel = true ∧
    fromCacheFlag
      (AIController.generateTestCases (intReq u ps i q cs) [testsRec u i q gw] gw2) =
      some (.bool true) ∧
    dataField (AIController.generateTestCases (intReq u ps i q cs) [testsRec u i q gw] gw2)
      "testCases" = some (testsSlotValue gw) ∧
    dataField (AIController.generateTestCases (intReq u ps i q cs) [testsRec u i q gw] gw2)
      "testCasesText" = some (testsTextValue gw) ∧
    (AIController.generateTestCases (intReq u ps i q cs)
      [testsRec u i q gw] gw2).calledModel = false ∧
    (AIController.generateTestCases (intReq u ps i q cs) [testsRec u i q gw] gw2).store =
      [testsRec u i q gw] := by
  refine ⟨?_, ?_, ?_, ?_, ?_, ?_, ?_, ?_, ?_, ?_⟩ <;>
    simp [intReq, testsRec, AIController.generateTestCases, AIController.testsMissPath,
          qInterviewOnly, truthyS, truthyN, truthyJ, hps, hcs, hi, hq, htc,
          List.find?, dataField, fromCacheFlag, jget, lookLast, reqInterviewId,
          reqQuestionId, reqProblemId]

/-- C1 counterexample: a gateway failure on a fresh analyze request DOES
create an AnalysisRecord (the claim says none is created), and the retry
with the same key reports `fromCache = true` (the claim says false). -/
theorem claim_C1_counterexample :
    (AIController.analyzeSolution
        { user := some "U", code := some "x", language := some "js", problemId := some "P" }
        [] .err).store.length = 1 ∧
    fromCacheFlag
      (AIController.analyzeSolution
        { user := some "U", code := some "x", language := some "js", problemId := some "P" }
        (AIController.analyzeSolution
          { user := some "U", code := some "x", language := some "js", problemId := some "P" }
          [] .err).store .err) = some (.bool true) :=
  ⟨rfl, rfl⟩

/-- C1 (amended): on a model failure every handler returns the task's
default failure shape with `fromCache = false`, but it DOES write that
failure shape through to the store (creating the record), so an identical
retry is served from the cache: `fromCache = true` with the cached failure
shape as the slot content. -/
theorem claim_C1_failure_is_cached (u c l ps p i : String) (q : Nat) (cs : Js)
    (gw2 : GwResult) (hc : c.isEmpty = false) (hl : l.isEmpty = false)
    (hps : ps.isEmpty = false) (hp : p.isEmpty = false) (hcs : cs.truthy = true)
    (hi : i.isEmpty = false) (hq : (q != 0) = true) :
    ((AIController.analyzeSolution (probReq u c l p) [] .err).store =
        [analyzeRec u c l p .err] ∧
      dataField (AIController.analyzeSolution (probReq u c l p) [] .err) "algorithmAnalysis" =
        jget OpenAIService.defaultAnalyzeFailure "algorithmAnalysis" ∧
      fromCacheFlag (AIController.analyzeSolution (probReq u c l p) [] .err) =
        some (.bool false) ∧
      fromCacheFlag
        (AIController.analyzeSolution (probReq u c l p) [analyzeRec u c l p .err] gw2) =
        some (.bool true) ∧
      dataField (AIController.analyzeSolution (probReq u c l p) [analyzeRec u c l p .err] gw2)
        "algorithmAnalysis" = jget OpenAIService.defaultAnalyzeFailure "algorithmAnalysis") ∧
    ((AIController.complexityAnalysis (probReq u c l p) [] .err).store =
        [complexityRec u c l p .err] ∧
      dataField (AIController.complexityAnalysis (probReq u c l p) [] .err)
        "complexityAnalysis" = jget OpenAIService.defaultComplexityFailure "complexityAnalysis" ∧
      fromCacheFlag (AIController.complexityAnalysis (probReq u c l p) [] .err) =
        some (.bool false) ∧
      fromCacheFlag
        (AIController.complexityAnalysis (probReq u c l p) [complexityRec u c l p .err] gw2) =
        some (.bool true)) ∧
    ((AIController.optimizeSolution (optReq u c l ps p) [] .err).store =
        [optimizeRec u c l p .err] ∧
      dataField (AIController.optimizeSolution (optReq u c l ps p) [] .err)
        "optimizationSuggestions" =
        jget OpenAIService.defaultOptimizeFailure "optimizationSuggestions" ∧
      fromCacheFlag (AIController.optimizeSolution (optReq u c l ps p) [] .err) =
        some (.bool false) ∧
      fromCacheFlag
        (AIController.optimizeSolution (optReq u c l ps p) [optimizeRec u c l p .err] gw2) =
        some (.bool true)) ∧
    ((AIController.generateTestCases (intReq u ps i q cs) [] .err).store =
        [testsRec u i q .err] ∧
      dataField (AIController.generateTestCases (intReq u ps i q cs) [] .err) "testCases" =
        jget OpenAIService.defaultTestCasesFailure "testCases" ∧
      fromCacheFlag (AIController.generateTestCases (intReq u ps i q cs) [] .err) =
        some (.bool false) ∧
      fromCacheFlag
        (AIController.generateTestCases (intReq u ps i q cs) [testsRec u i q .err] gw2) =
        some (.bool true)) ∧
    (∀ content, jsonParse (sanitizeJsonResponse (contentOrEmptyObj content)) = none →
      AIController.analyzeSolution (probReq u c l p) [] (.ok content) =
        AIController.analyzeSolution (probReq u c l p) [] .err) := by
  have hnorm : ∀ content, jsonParse (sanitizeJsonResponse (contentOrEmptyObj content)) = none →
      AIController.analyzeSolution (probReq u c l p) [] (.ok content) =
        AIController.analyzeSolution (probReq u c l p) [] .err := by
    intro content hparse
    have he : OpenAIService.analyzeCode (.ok content) = OpenAIService.analyzeCode .err := by
      simp [OpenAIService.analyzeCode, hparse]
    simp [AIController.analyzeSolution, AIController.analyzeMissPath, analyzeSlotValue,
          analyzeTextValue, he]
  obtain ⟨a1, a2, a3, -, -, a6, a7, -, -, -⟩ :=
    analyze_fresh_roundtrip u c l p .err gw2 hc hl hp
  obtain ⟨b1, b2, b3, -, -, b6, -, -, -, -⟩ :=
    complexity_fresh_roundtrip u c l p .err gw2 hc hl hp
  obtain ⟨o1, o2, o3, -, -, o6, -, -, -, -⟩ :=
    optimize_fresh_roundtrip u c l ps p .err gw2 hc hl hps hp
  obtain ⟨t1, t2, t3, -, -, t6, -, -, -, -⟩ :=
    tests_fresh_roundtrip u ps i q cs .err gw2 hps hcs hi hq rfl
  exact ⟨⟨a1, a3.trans rfl, a2, a6, a7.trans rfl⟩,
         ⟨b1, b3.trans rfl, b2, b6⟩,
         ⟨o1, o3.trans rfl, o2, o6⟩,
         ⟨t1, t3.trans rfl, t2, t6⟩, hnorm⟩

theorem claim_C1_witness :
    (AIController.analyzeSolution (probReq "U" "x" "js" "P") [] .err).store =
      [analyzeRec "U" "x" "js" "P" .err] ∧
    fromCacheFlag
      (AIController.analyzeSolution (probReq "U" "x" "js" "P")
        [analyzeRec "U" "x" "js" "P" .err] .err) = some (.bool true) :=
  ⟨(claim_C1_failure_is_cached "U" "x" "js" "ps" "P" "I" 7 (.str "c") .err
      rfl rfl rfl rfl rfl rfl rfl).1.1,
   (claim_C1_failure_is_cached "U" "x" "js" "ps" "P" "I" 7 (.str "c") .err
      rfl rfl rfl rfl rfl rfl rfl).1.2.2.2.1⟩

/-- Fixture request for the C3 counterexample. -/
def c3req : Req :=
  { user := some "U1", problemStatement := some "ps", constraints := some (.str "c"),
    interviewId := some "I1", questionId := some 7 }

/-- C3 counterexample: a generateTests call whose model reply is valid JSON
with an EMPTY `testCases` array succeeds (`success = true`, 200), stores the
empty array, and yet the second identical request is again a miss
(`fromCache = false`), because an empty slot counts as no cached result —
refuting "a second request identical to a successful first request returns
fromCache = true" for every task. -/
theorem claim_C3_counterexample :
    (AIController.generateTestCases c3req []
      (.ok "\x7b\"testCases\": [], \"explanationText\": \"x\"\x7d")).resp.success = true ∧
    fromCacheFlag
      (AIController.generateTestCases c3req []
        (.ok "\x7b\"testCases\": [], \"explanationText\": \"x\"\x7d")) = some (.bool false) ∧
    fromCacheFlag
      (AIController.generateTestCases c3req
        (AIController.generateTestCases c3req []
          (.ok "\x7b\"testCases\": [], \"explanationText\": \"x\"\x7d")).store
        (.ok "\x7b\"testCases\": [], \"explanationText\": \"x\"\x7d")) = some (.bool false) :=
  ⟨rfl, rfl, rfl⟩

/-- C3 (amended): for analyze, complexity and optimize a second identical
request after any first request on a fresh key is served from cache with the
same slot and text content; for generateTests this holds exactly when the
first call stored a non-empty `testCases` array (an empty stored array makes
the second call a miss again, as the counterexample shows). -/
theorem claim_C3_second_identical_cached (u c l ps i p : String) (q : Nat) (cs : Js)
    (gw gw2 : GwResult) (hc : c.isEmpty = false) (hl : l.isEmpty = false)
    (hps : ps.isEmpty = false) (hp : p.isEmpty = false) (hcs : cs.truthy = true)
    (hi : i.isEmpty = false) (hq : (q != 0) = true) :
    (fromCacheFlag (AIController.analyzeSolution (probReq u c l p)
        (AIController.analyzeSolution (probReq u c l p) [] gw).store gw2) =
        some (.bool true) ∧
      dataField (AIController.analyzeSolution (probReq u c l p)
        (AIController.analyzeSolution (probReq u c l p) [] gw).store gw2) "algorithmAnalysis" =
        dataField (AIController.analyzeSolution (probReq u c l p) [] gw) "algorithmAnalysis" ∧
      dataField (AIController.analyzeSolution (probReq u c l p)
        (AIController.analyzeSolution (probReq u c l p) [] gw).store gw2) "analysisText" =
        dataField (AIController.analyzeSolution (probReq u c l p) [] gw) "analysisText" ∧
      (AIController.analyzeSolution (probReq u c l p)
        (AIController.analyzeSolution (probReq u c l p) [] gw).store gw2).store =
        (AIController.analyzeSolution (probReq u c l p) [] gw).store ∧
      (AIController.analyzeSolution (probReq u c l p)
        (AIController.analyzeSolution (probReq u c l p) [] gw).store gw2).calledModel =
        false) ∧
    (fromCacheFlag (AIController.complexityAnalysis (probReq u c l p)
        (AIController.complexityAnalysis (probReq u c l p) [] gw).store gw2) =
        some (.bool true) ∧
      dataField (AIController.complexityAnalysis (probReq u c l p)
        (AIController.complexityAnalysis (probReq u c l p) [] gw).store gw2)
        "complexityAnalysis" =
        dataField (AIController.complexityAnalysis (probReq u c l p) [] gw)
          "complexityAnalysis" ∧
      (AIController.complexityAnalysis (probReq u c l p)
        (AIController.complexityAnalysis (probReq u c l p) [] gw).store gw2).calledModel =
        false) ∧
    (fromCacheFlag (AIController.optimizeSolution (optReq u c l ps p)
        (AIController.optimizeSolution (optReq u c l ps p) [] gw).store gw2) =
        some (.bool true) ∧
      dataField (AIController.optimizeSolution (optReq u c l ps p)
        (AIController.optimizeSolution (optReq u c l ps p) [] gw).store gw2)
        "optimizationSuggestions" =
        dataField (AIController.optimizeSolution (optReq u c l ps p) [] gw)
          "optimizationSuggestions" ∧
      (AIController.optimizeSolution (optReq u c l ps p)
        (AIController.optimizeSolution (optReq u c l ps p) [] gw).store gw2).calledModel =
        false) ∧
    (((testsSlotValue gw).truthy && (testsSlotValue gw).len != 0) = true →
      fromCacheFlag (AIController.generateTestCases (intReq u ps i q cs)
        (AIController.generateTestCases (intReq u ps i q cs) [] gw).store gw2) =
        some (.bool true) ∧
      dataField (AIController.generateTestCases (intReq u ps i q cs)
        (AIController.generateTestCases (intReq u ps i q cs) [] gw).store gw2) "testCases" =
        dataField (AIController.generateTestCases (intReq u ps i q cs) [] gw) "testCases" ∧
      (AIController.generateTestCases (intReq u ps i q cs)
        (AIController.generateTestCases (intReq u ps i q cs) [] gw).store gw2).calledModel =
        false) := by
  refine ⟨?_, ?_, ?_, fun htc => ?_⟩
  · obtain ⟨a1, -, a3, a4, -, a6, a7, a8, a9, a10⟩ :=
      analyze_fresh_roundtrip u c l p gw gw2 hc hl hp
    rw [a1]
    exact ⟨a6, a7.trans a3.symm, a8.trans a4.symm, a10, a9⟩
  · obtain ⟨b1, -, b3, -, -, b6, b7, -, b9, -⟩ :=
      complexity_fresh_roundtrip u c l p gw gw2 hc hl hp
    rw [b1]
    exact ⟨b6, b7.trans b3.symm, b9⟩
  · obtain ⟨o1, -, o3, -, -, o6, o7, -, o9, -⟩ :=
      optimize_fresh_roundtrip u c l ps p gw gw2 hc hl hps hp
    rw [o1]
    exact ⟨o6, o7.trans o3.symm, o9⟩
  · obtain ⟨t1, -, t3, -, -, t6, t7, -, t9, -⟩ :=
      tests_fresh_roundtrip u ps i q cs gw gw2 hps hcs hi hq htc
    rw [t1]
    exact ⟨t6, t7.trans t3.symm, t9⟩

theorem claim_C3_witness :
    (fromCacheFlag (AIController.analyzeSolution (probReq "U" "x" "js" "P")
        (AIController.analyzeSolution (probReq "U" "x" "js" "P") [] .err).store .err) =
      some (.bool true)) ∧
    (fromCacheFlag (AIController.generateTestCases (intReq "U" "ps" "I" 7 (.str "c"))
        (AIController.generateTestCases (intReq "U" "ps" "I" 7 (.str "c")) []
          (.ok "\x7b\"testCases\": [\x7b\"input\": 1\x7d], \"explanationText\": \"e\"\x7d")).store
        .err) = some (.bool true)) :=
  ⟨(claim_C3_second_identical_cached "U" "x" "js" "ps" "I" "P" 7 (.str "c") .err .err
      rfl rfl rfl rfl rfl rfl rfl).1.1,
   ((claim_C3_second_identical_cached "U" "x" "js" "ps" "I" "P" 7 (.str "c")
      (.ok "\x7b\"testCases\": [\x7b\"input\": 1\x7d], \"explanationText\": \"e\"\x7d") .err
      rfl rfl rfl rfl rfl rfl rfl).2.2.2 rfl).1⟩

/-- C7: generateTests cache identity ignores `code` — the handler never even
reads the request's code field and keys its lookup on owner plus scope only;
a stored record with an empty `testCases` array counts as a miss; and for a
fixed owner and interview scope, a first call that stores a non-empty
`testCases` array is a miss that populates the slot while the second call is
a hit returning the same array without a model call. -/
theorem claim_C7_tests_cache_ignores_code (u ps i : String) (q : Nat) (cs : Js)
    (gw gw2 : GwResult) (hps : ps.isEmpty = false) (hcs : cs.truthy = true)
    (hi : i.isEmpty = false) (hq : (q != 0) = true)
    (htc : ((testsSlotValue gw).truthy && (testsSlotValue gw).len != 0) = true) :
    (fromCacheFlag (AIController.generateTestCases (intReq u ps i q cs) [] gw) =
        some (.bool false) ∧
      (AIController.generateTestCases (intReq u ps i q cs) [] gw).calledModel = true ∧
      (AIController.generateTestCases (intReq u ps i q cs) [] gw).store =
        [testsRec u i q gw] ∧
      fromCacheFlag (AIController.generateTestCases (intReq u ps i q cs)
        (AIController.generateTestCases (intReq u ps i q cs) [] gw).store gw2) =
        some (.bool true) ∧
      dataField (AIController.generateTestCases (intReq u ps i q cs)
        (AIController.generateTestCases (intReq u ps i q cs) [] gw).store gw2) "testCases" =
        dataField (AIController.generateTestCases (intReq u ps i q cs) [] gw) "testCases" ∧
      (AIController.generateTestCases (intReq u ps i q cs)
        (AIController.generateTestCases (intReq u ps i q cs) [] gw).store gw2).calledModel =
        false) ∧
    (∀ (req : Req) (store : List AnalysisRecord) (g : GwResult) (c' : Option String),
      AIController.generateTestCases { req with code := c' } store g =
        AIController.generateTestCases req store g) ∧
    (∀ (req : Req) (store : List AnalysisRecord) (g : GwResult) (u' : String)
        (r : AnalysisRecord),
      (!truthyS req.problemStatement || !truthyJ req.constraints) = false →
      req.user = some u' →
      (truthyS req.interviewId && truthyN req.questionId) = true →
      store.find? (qInterviewOnly u' req.interviewId req.questionId) = some r →
      (r.testCases.truthy && r.testCases.len != 0) = false →
      (AIController.generateTestCases req store g).calledModel = true) := by
  refine ⟨?_, ?_, ?_⟩
  · obtain ⟨t1, t2, t3, -, t5, t6, t7, -, t9, -⟩ :=
      tests_fresh_roundtrip u ps i q cs gw gw2 hps hcs hi hq htc
    rw [t1]
    exact ⟨t2, t5, rfl, t6, t7.trans t3.symm, t9⟩
  · intro req store g c'
    rfl
  · intro req store g u' r h hu hscope hfind hslot
    simp [AIController.generateTestCases, h, hu, hscope, hfind, hslot,
          AIController.testsMissPath]

theorem claim_C7_witness :
    fromCacheFlag
      (AIController.generateTestCases (intReq "U1" "ps" "I1" 7 (.str "c"))
        (AIController.generateTestCases (intReq "U1" "ps" "I1" 7 (.str "c")) []
          (.ok "\x7b\"testCases\": [\x7b\"input\": 1\x7d], \"explanationText\": \"e\"\x7d")).store
        .err) = some ( .bool true) ∧
    (AIController.generateTestCases (intReq "U1" "ps" "I1" 7 (.str "c"))
      (AIController.generateTestCases (intReq "U1" "ps" "I1" 7 (.str "c")) []
        (.ok "\x7b\"testCases\": [\x7b\"input\": 1\x7d], \"explanationText\": \"e\"\x7d")).store
      .err).calledModel = false :=
  ⟨((claim_C7_tests_cache_ignores_code "U1" "ps" "I1" 7 (.str "c")
      (.ok "\x7b\"testCases\": [\x7b\"input\": 1\x7d], \"explanationText\": \"e\"\x7d") .err
      rfl rfl rfl rfl rfl).1).2.2.2.1,
   ((claim_C7_tests_cache_ignores_code "U1" "ps" "I1" 7 (.str "c")
      (.ok "\x7b\"testCases\": [\x7b\"input\": 1\x7d], \"explanationText\": \"e\"\x7d") .err
      rfl rfl rfl rfl rfl).1).2.2.2.2.2⟩

theorem lookLast_append_last (fs : List (String × Js)) (k : String) (v : Js) :
    lookLast (fs ++ [(k, v)]) k = some v := by
  induction fs with
  | nil => simp [lookLast]
  | cons a rest ih => simp [lookLast, ih]

/-- C4 counterexample: normalization does not coerce present truthy fields
to their declared types — a model reply `\x7b"optimizationTips": 5\x7d`
passes the number 5 through as `optimizationTips`, so the analyze result
does not conform to the strict shape (a string array was required). -/
theorem claim_C4_counterexample :
    specAnalyzeShape
      (OpenAIService.analyzeCode (.ok "\x7b\"optimizationTips\": 5\x7d")) = false := rfl

/-- C4 (amended): each task's normalization is total — every path returns a
value with the task's top-level fields present, a parse failure yields the
task's default failure shape (which does conform to the strict shape), and
generateTests' `testCases` is always an array — but present truthy fields
are passed through without type coercion, so the result need not conform to
the task's strict shape. -/
theorem claim_C4_normalization_total (gw : GwResult) :
    ((jget (OpenAIService.analyzeCode gw) "algorithmAnalysis").isSome = true ∧
      (jget (OpenAIService.analyzeCode gw) "analysisText").isSome = true) ∧
    ((jget (OpenAIService.analyzeComplexity gw) "complexityAnalysis").isSome = true ∧
      (jget (OpenAIService.analyzeComplexity gw) "analysisText").isSome = true) ∧
    ((jget (OpenAIService.optimizeCode gw) "optimizationSuggestions").isSome = true ∧
      (jget (OpenAIService.optimizeCode gw) "analysisText").isSome = true) ∧
    ((jget (OpenAIService.generateTestCases gw) "testCases").isSome = true ∧
      (jget (OpenAIService.generateTestCases gw) "analysisText").isSome = true) ∧
    ((jget (OpenAIService.generateTestCases gw) "testCases").getD .null |>.isArr) = true ∧
    (∀ content, gw = .ok content →
      jsonParse (sanitizeJsonResponse (contentOrEmptyObj content)) = none →
      OpenAIService.analyzeCode gw = OpenAIService.defaultAnalyzeFailure ∧
      OpenAIService.analyzeComplexity gw = OpenAIService.defaultComplexityFailure ∧
      OpenAIService.optimizeCode gw = OpenAIService.defaultOptimizeFailure) ∧
    specAnalyzeShape OpenAIService.defaultAnalyzeFailure = true := by
  refine ⟨?_, ?_, ?_, ?_, ?_, ?_, rfl⟩
  · cases gw with
    | err => exact ⟨rfl, rfl⟩
    | ok content =>
      cases h : jsonParse (sanitizeJsonResponse (contentOrEmptyObj content)) with
      | none =>
        simp [OpenAIService.analyzeCode, h, OpenAIService.defaultAnalyzeFailure, jget, lookLast]
      | some d =>
        cases hn : d.isNull with
        | true =>
          simp [OpenAIService.analyzeCode, h, hn, OpenAIService.defaultAnalyzeFailure,
                jget, lookLast]
        | false => simp [OpenAIService.analyzeCode, h, hn, jget, lookLast]
  · cases gw with
    | err => exact ⟨rfl, rfl⟩
    | ok content =>
      cases h : jsonParse (sanitizeJsonResponse (contentOrEmptyObj content)) with
      | none =>
        simp [OpenAIService.analyzeComplexity, h, OpenAIService.defaultComplexityFailure,
              jget, lookLast]
      | some d =>
        cases hn : d.isNull with
        | true =>
          simp [OpenAIService.analyzeComplexity, h, hn, OpenAIService.defaultComplexityFailure,
                jget, lookLast]
        | false => simp [OpenAIService.analyzeComplexity, h, hn, jget, lookLast]
  · cases gw with
    | err => exact ⟨rfl, rfl⟩
    | ok content =>
      cases h : jsonParse (sanitizeJsonResponse (contentOrEmptyObj content)) with
      | none =>
        simp [OpenAIService.optimizeCode, h, OpenAIService.defaultOptimizeFailure,
              jget, lookLast]
      | some d =>
        cases hn : d.isNull with
        | true =>
          simp [OpenAIService.optimizeCode, h, hn, OpenAIService.defaultOptimizeFailure,
                jget, lookLast]
        | false => simp [OpenAIService.optimizeCode, h, hn, jget, lookLast]
  · cases gw with
    | err => exact ⟨rfl, rfl⟩
    | ok content =>
      exact ⟨by simp [OpenAIService.generateTestCases, jget, lookLast],
             by simp [OpenAIService.generateTestCases, jget, lookLast]⟩
  · cases gw with
    | err => rfl
    | ok content =>
      cases h : jsonParse (replaceRange (replaceCompr (sanitizeJsonResponse
          (contentOrEmptyObj content)))) with
      | none =>
        simp [OpenAIService.generateTestCases, h, OpenAIService.parseFailTestCaseData,
              jget, lookLast, jsOr, Js.truthy, Js.isArr]
      | some d =>
        cases d with
        | null =>
          simp [OpenAIService.generateTestCases, h, OpenAIService.parseFailTestCaseData,
                jget, lookLast, jsOr, Js.isNull, Js.truthy, Js.isArr]
        | bool b =>
          simp [OpenAIService.generateTestCases, h, jget, lookLast, jsOr, Js.isNull, Js.isArr]
        | num s =>
          simp [OpenAIService.generateTestCases, h, jget, lookLast, jsOr, Js.isNull, Js.isArr]
        | str s =>
          simp [OpenAIService.generateTestCases, h, jget, lookLast, jsOr, Js.isNull, Js.isArr]
        | arr xs =>
          simp [OpenAIService.generateTestCases, h, jget, lookLast, jsOr, Js.isNull, Js.isArr]
        | obj fs =>
          cases hl : lookLast fs "testCases" with
          | none =>
            simp [OpenAIService.generateTestCases, h, hl, jget, lookLast, jsOr,
                  Js.isNull, Js.isArr]
          | some tc =>
            by_cases ht : (tc.truthy = true ∧ tc.isArr = false)
            · simp [OpenAIService.generateTestCases, h, hl, ht.1, ht.2, jget, jset,
                    lookLast_append_last, jsOr, Js.isNull, lookLast]
              rfl
            · by_cases htr : tc.truthy = true
              · have hA : tc.isArr = true := by
                  cases hA2 : tc.isArr with
                  | true => rfl
                  | false => exact absurd ⟨htr, hA2⟩ ht
                simp [OpenAIService.generateTestCases, h, hl, ht, htr, hA, jget, jsOr,
                      Js.isNull, lookLast]
              · have htr2 : tc.truthy = false := by
                  cases hF : tc.truthy with
                  | false => rfl
                  | true => exact absurd hF htr
                simp [OpenAIService.generateTestCases, h, hl, ht, htr2, jget, jsOr,
                      Js.isNull, lookLast]
                rfl
  · intro content hgw h
    subst hgw
    refine ⟨?_, ?_, ?_⟩ <;>
      simp [OpenAIService.analyzeCode, OpenAIService.analyzeComplexity,
            OpenAIService.optimizeCode, h]

theorem claim_C4_witness :
    OpenAIService.analyzeCode (.ok "plain prose") = OpenAIService.defaultAnalyzeFailure ∧
    ((jget (OpenAIService.generateTestCases (.ok "plain prose")) "testCases").getD
        .null |>.isArr) = true :=
  ⟨((claim_C4_normalization_total (.ok "plain prose")).2.2.2.2.2.1 "plain prose" rfl rfl).1,
   (claim_C4_normalization_total (.ok "plain prose")).2.2.2.2.1⟩

/-- The C5 counterexample model reply: valid-looking JSON whose array value
is a Python-style comprehension, exactly the case the repair pass targets. -/
def c5content : String :=
  "\x7b\"approachIdentified\": \"BFS\", \"optimizationTips\": [x for x in range(5)]\x7d"

/-- C5 counterexample: for the analyze task a reply whose strict parse fails
yields the default failure shape directly — no repair pass is attempted —
even though the repair replacements would have made the reply parse (the
second conjunct shows the repaired text parses with `approachIdentified`
"BFS"), refuting "the repair applies uniformly to all four tasks". -/
theorem claim_C5_counterexample :
    OpenAIService.analyzeCode (.ok c5content) = OpenAIService.defaultAnalyzeFailure ∧
    ((jsonParse (replaceRange (replaceCompr (sanitizeJsonResponse c5content)))).bind
      (fun d => jget d "approachIdentified")) = some (.str "BFS") :=
  ⟨rfl, rfl⟩

/-- C5 (amended): the comprehension/range repair exists only in the
generateTests task, where the replacements are applied before its single
parse (the spec's own repair example holds there); for analyze, complexity
and optimize a failed strict parse of the sanitized text immediately
produces the default failure shape, with no repair and no retry. -/
theorem claim_C5_repair_only_in_tests :
    (∀ content, jsonParse (sanitizeJsonResponse (contentOrEmptyObj content)) = none →
      OpenAIService.analyzeCode (.ok content) = OpenAIService.defaultAnalyzeFailure ∧
      OpenAIService.analyzeComplexity (.ok content) = OpenAIService.defaultComplexityFailure ∧
      OpenAIService.optimizeCode (.ok content) = OpenAIService.defaultOptimizeFailure) ∧
    OpenAIService.generateTestCases
        (.ok "\x7b\"testCases\": [i for i in range(10)], \"explanationText\": \"x\"\x7d") =
      .obj [("testCases", .arr []), ("analysisText", .str "x")] := by
  refine ⟨fun content h => ?_, rfl⟩
  refine ⟨?_, ?_, ?_⟩ <;>
    simp [OpenAIService.analyzeCode, OpenAIService.analyzeComplexity,
          OpenAIService.optimizeCode, h]

theorem claim_C5_witness :
    OpenAIService.analyzeCode (.ok c5content) = OpenAIService.defaultAnalyzeFailure ∧
    OpenAIService.optimizeCode (.ok c5content) = OpenAIService.defaultOptimizeFailure :=
  ⟨((claim_C5_repair_only_in_tests).1 c5content rfl).1,
   ((claim_C5_repair_only_in_tests).1 c5content rfl).2.2⟩
